import Mathlib

/-!
Verification development for an intraday trading-signal engine.

The Python source is shallowly embedded: prices, volumes and scores are
modelled as rationals (`ℚ`), Python lists as `List`, bounded `deque`s as
lists with an explicit eviction step, per-instrument dictionaries as
association lists, and ISO timestamps as natural numbers counting seconds
(the 5-minute bucketing `dt.replace(minute=(minute//5)*5, second=0)`
becomes truncation to a multiple of 300).  Python's `round(x, n)`
(round-half-to-even on decimals) is `pyRound`.  Fallible functions return
`Option`.  Each definition mirrors one function of the source; the few
places where the source imports a module that is not part of the
repository snapshot are modelled from the specification and say so in
their doc comment.
-/

/-- Python `max(a, b)` on numbers. -/
def qmax (a b : ℚ) : ℚ := if a ≤ b then b else a

/-- Python `min(a, b)` on numbers. -/
def qmin (a b : ℚ) : ℚ := if a ≤ b then a else b

/-- Python `abs(a)` on numbers. -/
def qabs (a : ℚ) : ℚ := if a < 0 then -a else a

/-- Python `max` of a list, `0` on the empty list (the source only applies
it to lists its guards have shown nonempty). -/
def listMax : List ℚ → ℚ
  | [] => 0
  | x :: xs => xs.foldl qmax x

/-- Python `min` of a list, `0` on the empty list. -/
def listMin : List ℚ → ℚ
  | [] => 0
  | x :: xs => xs.foldl qmin x

/-- Round to the nearest integer, ties to even: the rounding Python's
`round` applies to the decimal value. -/
def roundHalfEven (x : ℚ) : ℤ :=
  let f : ℤ := ⌊x⌋
  let r : ℚ := x - (f : ℚ)
  if r < 1/2 then f else if 1/2 < r then f + 1 else if 2 ∣ f then f else f + 1

/-- Python `round(x, n)`. -/
def pyRound (x : ℚ) (n : ℕ) : ℚ := ((roundHalfEven (x * 10 ^ n) : ℤ) : ℚ) / 10 ^ n

/-- Python slice `xs[-n:]` for `n ≥ 1` (clamped at the front). -/
def takeLast (n : ℕ) (xs : List α) : List α := xs.drop (xs.length - n)

/-- Python slice `xs[-n:]` including the `n = 0` case, where `xs[-0:]`
is the whole list. -/
def pyLastSlice (n : ℕ) (xs : List α) : List α :=
  if n = 0 then xs else takeLast n xs

/-- Python slice `xs[-a:-b]` for `a ≥ b ≥ 1` (both ends clamped). -/
def sliceNN (a b : ℕ) (xs : List α) : List α :=
  (xs.take (xs.length - b)).drop (xs.length - a)

/-- Python slice `xs[:-b]` for `b ≥ 1`. -/
def dropLastN (b : ℕ) (xs : List α) : List α := xs.take (xs.length - b)

/-- Python `xs[-k]` for `k ≥ 1`; the source only uses it under length
guards, so the default value is never read. -/
def idxNeg (xs : List ℚ) (k : ℕ) : ℚ := xs.getD (xs.length - k) 0

/-- Python `xs[-1]` on a list the source has checked nonempty. -/
def pyLast (xs : List ℚ) : ℚ := xs.getLast?.getD 0

/-- `collections.deque(maxlen := m).append x`: append on the right and,
when the capacity is exceeded, evict from the left. -/
def dequeAppend (maxlen : ℕ) (xs : List α) (x : α) : List α :=
  let ys := xs ++ [x]
  if maxlen < ys.length then ys.drop (ys.length - maxlen) else ys

/-- Dictionary read, `d.get(k)`. -/
def alistGet (m : List (String × α)) (k : String) : Option α :=
  (m.find? (fun p => p.1 == k)).map (·.2)

/-- Dictionary write, `d[k] = v` (replaces the binding or creates it). -/
def alistSet (m : List (String × α)) (k : String) (v : α) : List (String × α) :=
  match m with
  | [] => [(k, v)]
  | (k', v') :: rest =>
      if k' == k then (k, v) :: rest else (k', v') :: alistSet rest k v

/-- One completed OHLCV bar (`strategy/scanner.py` stores them as dicts
with keys time/open/high/low/close/volume). -/
structure Bar where
  time : ℕ
  open_p : ℚ
  high_p : ℚ
  low_p : ℚ
  close_p : ℚ
  volume : ℚ
deriving DecidableEq, Repr

/-- `MarketScanner.__init__`: per-instrument deques of completed bars,
capacity `max_len` (default 400).  Locks, snapshot persistence, alert
bookkeeping and close callbacks carry no bar state and are not modelled. -/
structure MarketScanner where
  max_len : ℕ
  bars : List (String × List Bar)
  bars_received : ℕ
  bars_closed : ℕ
deriving Repr

def MarketScanner.init (max_len : ℕ := 400) : MarketScanner :=
  ⟨max_len, [], 0, 0⟩

/-- `MarketScanner._round_to_5min`: round a timestamp down to the nearest
5-minute boundary. -/
def round_to_5min (t : ℕ) : ℕ := t - t % 300

/-- `MarketScanner.append_ohlc_bar`: ingest a completed bar as given
(`_ensure_inst` creates the deque on first touch; the close callbacks do
not change the stored series). -/
def append_ohlc_bar (s : MarketScanner) (inst : String) (time_iso : ℕ)
    (open_p high_p low_p close_p volume : ℚ) : MarketScanner :=
  let cur := (alistGet s.bars inst).getD []
  let bar : Bar := ⟨time_iso, open_p, high_p, low_p, close_p, volume⟩
  { s with bars := alistSet s.bars inst (dequeAppend s.max_len cur bar),
           bars_closed := s.bars_closed + 1 }

/-- `MarketScanner.append_tick`: bucket the timestamp down to the 5-minute
boundary; open a new bar when the bucket differs from the last stored
bar's time, otherwise update the last bar in place. -/
def append_tick (s : MarketScanner) (inst : String) (timestamp : ℕ)
    (price volume : ℚ) : MarketScanner :=
  let cur := (alistGet s.bars inst).getD []
  let time_iso := round_to_5min timestamp
  match cur.getLast? with
  | some lastBar =>
      if lastBar.time ≠ time_iso then
        { s with bars := alistSet s.bars inst
                   (dequeAppend s.max_len cur ⟨time_iso, price, price, price, price, volume⟩),
                 bars_received := s.bars_received + 1 }
      else
        let bar' : Bar := { lastBar with
          high_p := qmax lastBar.high_p price,
          low_p := qmin lastBar.low_p price,
          close_p := price,
          volume := lastBar.volume + volume }
        { s with bars := alistSet s.bars inst (cur.dropLast ++ [bar']),
                 bars_received := s.bars_received + 1 }
  | none =>
      { s with bars := alistSet s.bars inst
                 (dequeAppend s.max_len cur ⟨time_iso, price, price, price, price, volume⟩),
               bars_received := s.bars_received + 1 }

/-- `MarketScanner.get_last_n_bars` (`list(...)[-n:]`, empty for an
unknown instrument). -/
def get_last_n_bars (s : MarketScanner) (inst : String) (n : ℕ) : List Bar :=
  match alistGet s.bars inst with
  | none => []
  | some l => pyLastSlice n l

def get_prices (s : MarketScanner) (inst : String) : List ℚ :=
  (get_last_n_bars s inst s.max_len).map (·.close_p)

def get_highs (s : MarketScanner) (inst : String) : List ℚ :=
  (get_last_n_bars s inst s.max_len).map (·.high_p)

def get_lows (s : MarketScanner) (inst : String) : List ℚ :=
  (get_last_n_bars s inst s.max_len).map (·.low_p)

def get_closes (s : MarketScanner) (inst : String) : List ℚ :=
  (get_last_n_bars s inst s.max_len).map (·.close_p)

def get_volumes (s : MarketScanner) (inst : String) : List ℚ :=
  (get_last_n_bars s inst s.max_len).map (·.volume)

/-- `MarketScanner.has_enough_data`. -/
def has_enough_data (s : MarketScanner) (inst : String) (min_bars : ℕ) : Prop :=
  match alistGet s.bars inst with
  | none => False
  | some l => min_bars ≤ l.length

instance (s : MarketScanner) (inst : String) (n : ℕ) :
    Decidable (has_enough_data s inst n) := by
  unfold has_enough_data; exact match alistGet s.bars inst with
  | none => inferInstanceAs (Decidable False)
  | some l => inferInstanceAs (Decidable (n ≤ l.length))

/-- One ingestion operation of the scanner, for stating store invariants. -/
inductive ScanOp where
  | ohlc (inst : String) (time_iso : ℕ) (open_p high_p low_p close_p volume : ℚ)
  | tick (inst : String) (timestamp : ℕ) (price volume : ℚ)

def runOp (s : MarketScanner) : ScanOp → MarketScanner
  | .ohlc inst t o h l c v => append_ohlc_bar s inst t o h l c v
  | .tick inst t p v => append_tick s inst t p v

def runOps (s : MarketScanner) (ops : List ScanOp) : MarketScanner :=
  ops.foldl runOp s

/-- Bars strictly increasing in their `time` field (hence no duplicate
timestamps). -/
def StrictTimes : List Bar → Prop := List.Chain' (fun a b => a.time < b.time)

/-- Aggregated higher-timeframe candle (`MTFBuilder._aggregate` output
dict). -/
structure Candle where
  time_start : ℕ
  time_end : ℕ
  open_p : ℚ
  high_p : ℚ
  low_p : ℚ
  close_p : ℚ
  volume : ℚ
deriving DecidableEq, Repr

/-- `MTFBuilder` keeps one bounded deque of 5-minute bars per instrument
(`max_5m_bars = 1200`). -/
def mtf_max_5m_bars : ℕ := 1200

/-- `_to_5min_iso`: normalize a bar timestamp to its 5-minute boundary. -/
def to_5min_iso (t : ℕ) : ℕ := t - t % 300

/-- `MTFBuilder.update`: append the normalized 5-minute bar to the
instrument's buffer. -/
def mtf_update (buffers : List (String × List Bar)) (inst : String)
    (timestamp : ℕ) (o h l c v : ℚ) : List (String × List Bar) :=
  let bar : Bar := ⟨to_5min_iso timestamp, o, h, l, c, v⟩
  alistSet buffers inst (dequeAppend mtf_max_5m_bars ((alistGet buffers inst).getD []) bar)

/-- `MTFBuilder._aggregate` on a nonempty oldest-to-newest chunk. -/
def mtf_aggregate (bars : List Bar) : Candle :=
  match bars with
  | [] => ⟨0, 0, 0, 0, 0, 0, 0⟩
  | b :: _ =>
      { time_start := b.time,
        time_end := (bars.getLast?.getD b).time,
        open_p := b.open_p,
        high_p := listMax (bars.map (·.high_p)),
        low_p := listMin (bars.map (·.low_p)),
        close_p := (bars.getLast?.getD b).close_p,
        volume := (bars.map (·.volume)).sum }

/-- `MTFBuilder.get_latest_tf`: aggregate the last `minutes // 5` 5-minute
bars, `None` when the buffer is unknown, empty, or too short. -/
def get_latest_tf (buffers : List (String × List Bar)) (inst : String)
    (minutes : ℕ) : Option Candle :=
  let bars := (alistGet buffers inst).getD []
  if bars = [] then none
  else
    let required_bars := minutes / 5
    if bars.length < required_bars then none
    else some (mtf_aggregate (pyLastSlice required_bars bars))

/-- `MTFBuilder.get_tf_history`: aggregates of consecutive blocks of
`minutes // 5` bars, oldest first; blocks that would start before the
buffer are skipped.  The source computes `end = total - (i-1)*required`
and `start = end - required` with Python integers and skips when
`start < 0`; for `required_bars ≥ 1` (every use has `minutes ≥ 15`) that
is exactly the natural-number formulation below. -/
def get_tf_history (buffers : List (String × List Bar)) (inst : String)
    (minutes : ℕ) (lookback : ℕ) : List Candle :=
  let bars := (alistGet buffers inst).getD []
  if bars = [] then []
  else
    let total := bars.length
    let required_bars := minutes / 5
    let is : List ℕ := ((List.range lookback).reverse).map (fun n => n + 1)
    is.filterMap (fun i =>
      if total < i * required_bars then none
      else some (mtf_aggregate
        ((bars.take (total - (i - 1) * required_bars)).drop (total - i * required_bars))))

def get_latest_15m (buffers : List (String × List Bar)) (inst : String) : Option Candle :=
  get_latest_tf buffers inst 15

def get_latest_30m (buffers : List (String × List Bar)) (inst : String) : Option Candle :=
  get_latest_tf buffers inst 30

/-- `strategy/mtf_context.py` output object. -/
structure MTFContext where
  direction : String
  strength : ℚ
  confidence : String
  conflict : Bool
  comment : String
deriving Repr

/-- `_is_bullish` (on a present candle). -/
def candle_is_bullish (c : Candle) : Prop := c.open_p < c.close_p

/-- `_is_bearish`. -/
def candle_is_bearish (c : Candle) : Prop := c.close_p < c.open_p

instance (c : Candle) : Decidable (candle_is_bullish c) := by
  unfold candle_is_bullish; infer_instance

instance (c : Candle) : Decidable (candle_is_bearish c) := by
  unfold candle_is_bearish; infer_instance

/-- `_persistence_score`: bonus from the last three candles of a history. -/
def persistence_score (history : List Candle) : ℚ :=
  if history = [] ∨ history.length < 2 then 0
  else
    let last := takeLast 3 history
    let bull := (last.filter (fun c => decide (candle_is_bullish c))).length
    let bear := (last.filter (fun c => decide (candle_is_bearish c))).length
    if bull = 3 ∨ bear = 3 then 6/10
    else if 2 ≤ bull ∨ 2 ≤ bear then 3/10
    else 0

/-- The base direction votes of `analyze_mtf` (0.8 for the 15m candle,
1.4 for the 30m candle). -/
def mtf_vote (candle : Option Candle) (weight : ℚ) : ℚ :=
  match candle with
  | none => 0
  | some c =>
      if candle_is_bullish c then weight
      else if candle_is_bearish c then -weight
      else 0

/-- The conflict detection of `analyze_mtf`. -/
def mtf_conflict (candle_15m candle_30m : Option Candle) : Bool :=
  match candle_15m, candle_30m with
  | some a, some b =>
      decide ((candle_is_bullish a ∧ candle_is_bearish b) ∨
              (candle_is_bearish a ∧ candle_is_bullish b))
  | _, _ => false

/-- The running score of `analyze_mtf`: direction votes, the 0.7 conflict
damping, then the persistence bonuses. -/
def mtf_score (candle_15m candle_30m : Option Candle)
    (history_15m history_30m : List Candle) : ℚ :=
  let score2 := mtf_vote candle_15m (8/10) + mtf_vote candle_30m (14/10)
  let score3 := if mtf_conflict candle_15m candle_30m then score2 * (7/10) else score2
  let score4 :=
    if history_15m = [] then score3 else score3 + persistence_score history_15m
  if history_30m = [] then score4 else score4 + persistence_score history_30m

/-- `analyze_mtf`: vote a direction from the 15m and 30m candles, detect
conflict, add persistence bonuses, bucket confidence.  Comment strings are
abstracted to the empty string (they carry no control flow). -/
def analyze_mtf (candle_15m candle_30m : Option Candle)
    (history_15m history_30m : List Candle) : MTFContext :=
  let score := mtf_score candle_15m candle_30m history_15m history_30m
  let conflict := mtf_conflict candle_15m candle_30m
  let direction :=
    if qabs score < 4/10 then "NEUTRAL"
    else if 0 < score then "BULLISH" else "BEARISH"
  let strength := pyRound (qmin (qabs score) 2) 2
  let confidence :=
    if 11/10 ≤ strength ∧ conflict = false then "HIGH"
    else if 6/10 ≤ strength then "MEDIUM" else "LOW"
  { direction := direction, strength := strength, confidence := confidence,
    conflict := conflict, comment := "" }

/-- `strategy/vwap_filter.py` context output. -/
structure VWAPContext where
  vwap : Option ℚ
  distance_pct : ℚ
  slope : ℚ
  acceptance : String
  pressure : String
  score : ℚ
  comment : String
deriving Repr

/-- `VWAPCalculator` state: running session sums, optional rolling window
deques, and a short history of computed VWAP values for the slope. -/
structure VWAPCalculator where
  window : Option ℕ
  slope_window : ℕ
  price_volume_sum : ℚ
  volume_sum : ℚ
  vwap_history : List ℚ
  price_volume_deque : List ℚ
  volume_deque : List ℚ
deriving Repr

/-- `VWAPCalculator()` as constructed by the strategy engine
(`window = None`, `slope_window = 3`, sums reset). -/
def VWAPCalculator.init : VWAPCalculator := ⟨none, 3, 0, 0, [], [], []⟩

/-- `VWAPCalculator.update`: reject non-positive volume without touching
state; otherwise accumulate (or roll the window), recompute the VWAP and
push it onto the slope history. -/
def vwap_update (s : VWAPCalculator) (price volume : ℚ) :
    Option ℚ × VWAPCalculator :=
  if volume ≤ 0 then (none, s)
  else
    let s1 :=
      if s.window.getD 0 ≠ 0 then
        let w := s.window.getD 0
        let pvd := dequeAppend w s.price_volume_deque (price * volume)
        let vd := dequeAppend w s.volume_deque volume
        { s with price_volume_deque := pvd, volume_deque := vd,
                 price_volume_sum := pvd.sum, volume_sum := vd.sum }
      else
        { s with price_volume_sum := s.price_volume_sum + price * volume,
                 volume_sum := s.volume_sum + volume }
    if s1.volume_sum ≤ 0 then (none, s1)
    else
      let vwap := s1.price_volume_sum / s1.volume_sum
      (some vwap,
       { s1 with vwap_history := dequeAppend s1.slope_window s1.vwap_history vwap })

/-- `VWAPCalculator.get_vwap`: `None` while no volume has accumulated. -/
def get_vwap (s : VWAPCalculator) : Option ℚ :=
  if s.volume_sum ≤ 0 then none else some (s.price_volume_sum / s.volume_sum)

/-- `VWAPCalculator.get_context`. -/
def vwap_get_context (s : VWAPCalculator) (price : ℚ) : VWAPContext :=
  match get_vwap s with
  | none =>
      { vwap := none, distance_pct := 0, slope := 0, acceptance := "NEAR",
        pressure := "NEUTRAL", score := 0, comment := "VWAP not available" }
  | some vwap =>
      let distance_pct := (price - vwap) / vwap * 100
      let slope :=
        if 2 ≤ s.vwap_history.length then
          pyLast s.vwap_history - s.vwap_history.headD 0
        else 0
      let acceptance :=
        if 3/10 < distance_pct then "ABOVE"
        else if distance_pct < -(3/10) then "BELOW" else "NEAR"
      let psc : String × ℚ × String :=
        if acceptance = "ABOVE" ∧ 0 < slope then
          ("BUYING", 3/2, "Accepted above VWAP with rising slope")
        else if acceptance = "BELOW" ∧ slope < 0 then
          ("SELLING", -(3/2), "Accepted below VWAP with falling slope")
        else if acceptance = "NEAR" then
          ("NEUTRAL", 0, "Near VWAP (magnet zone)")
        else ("NEUTRAL", -(3/10), "VWAP uncertainty or weak pressure")
      let score := qmax (qmin psc.2.1 (12/10)) (-(12/10))
      { vwap := some (pyRound vwap 6), distance_pct := pyRound distance_pct 3,
        slope := pyRound slope 6, acceptance := acceptance,
        pressure := psc.1, score := score, comment := psc.2.2 }

/-- `compute_true_range` (identical in `strategy/volatility_filter.py` and
`strategy/market_regime.py`): true range of each bar after the first; the
source indexes the three equal-length series in lockstep. -/
def compute_true_range : List ℚ → List ℚ → List ℚ → List ℚ
  | _ :: h2 :: ht, _ :: l2 :: lt, c1 :: c2 :: ct =>
      qmax (h2 - l2) (qmax (qabs (h2 - c1)) (qabs (l2 - c1))) ::
        compute_true_range (h2 :: ht) (l2 :: lt) (c2 :: ct)
  | _, _, _ => []

/-- `compute_atr`: mean of the last `period` true ranges, `None` when there
are fewer. -/
def compute_atr (highs lows closes : List ℚ) (period : ℕ := 14) : Option ℚ :=
  let tr := compute_true_range highs lows closes
  if tr.length < period then none
  else some ((takeLast period tr).sum / (period : ℚ))

/-- The `+DM` series of `compute_adx`. -/
def plus_dm_list : List ℚ → List ℚ → List ℚ
  | h1 :: h2 :: ht, l1 :: l2 :: lt =>
      (if l1 - l2 < h2 - h1 ∧ 0 < h2 - h1 then h2 - h1 else 0) ::
        plus_dm_list (h2 :: ht) (l2 :: lt)
  | _, _ => []

/-- The `-DM` series of `compute_adx`. -/
def minus_dm_list : List ℚ → List ℚ → List ℚ
  | h1 :: h2 :: ht, l1 :: l2 :: lt =>
      (if h2 - h1 < l1 - l2 ∧ 0 < l1 - l2 then l1 - l2 else 0) ::
        minus_dm_list (h2 :: ht) (l2 :: lt)
  | _, _ => []

/-- `compute_adx` (`strategy/market_regime.py`): directional-movement
ratio over ATR; the source returns the raw `dx`. -/
def compute_adx (highs lows closes : List ℚ) (period : ℕ := 14) : Option ℚ :=
  if highs.length < period + 1 then none
  else
    match compute_atr highs lows closes period with
    | none => none
    | some atr =>
        if atr = 0 then none
        else
          let plus_di := (takeLast period (plus_dm_list highs lows)).sum / atr * 100
          let minus_di := (takeLast period (minus_dm_list highs lows)).sum / atr * 100
          if plus_di + minus_di = 0 then some 0
          else some (qabs (plus_di - minus_di) / (plus_di + minus_di) * 100)

/-- `strategy/volume_filter.py` context output. -/
structure VolumeContext where
  score : ℚ
  strength : String
  trend : String
  comment : String
deriving Repr

/-- Python `all(xs[i] > xs[i-1] ...)`: strictly rising consecutive pairs
(vacuously true on short lists). -/
def strictlyRising (xs : List ℚ) : Bool :=
  (xs.zip xs.tail).all fun p => decide (p.1 < p.2)

/-- Python `all(xs[i] < xs[i-1] ...)`. -/
def strictlyFalling (xs : List ℚ) : Bool :=
  (xs.zip xs.tail).all fun p => decide (p.2 < p.1)

/-- `analyze_volume`: relative strength vs the lookback average, volume
trend, and a price/volume absorption check; score clamped to `[-2, 2]`. -/
def analyze_volume (volume_history : List ℚ) (close_prices : Option (List ℚ) := none)
    (lookback : ℕ := 12) (rising_bars : ℕ := 3) : VolumeContext :=
  if volume_history = [] ∨ volume_history.length < lookback + rising_bars then
    ⟨0, "NONE", "FLAT", "Insufficient volume data"⟩
  else
    let recent := pyLastSlice lookback volume_history
    let avg_volume := if 0 < lookback then recent.sum / (lookback : ℚ) else 0
    let current_volume := pyLast volume_history
    let rel := if 0 < avg_volume then current_volume / avg_volume else 1
    let sb : String × ℚ :=
      if 16/10 ≤ rel then ("STRONG", 2)
      else if 14/10 ≤ rel then ("MODERATE", 12/10)
      else if 95/100 ≤ rel then ("WEAK", 4/10)
      else ("NONE", -(5/10))
    let strength := sb.1
    let last_n := pyLastSlice rising_bars volume_history
    let ts : String × ℚ :=
      if strictlyRising last_n then ("RISING", sb.2 + 5/10)
      else if strictlyFalling last_n then ("FALLING", sb.2 - 5/10)
      else ("FLAT", sb.2)
    let score2 :=
      match close_prices with
      | some cp =>
          if cp ≠ [] ∧ rising_bars ≤ cp.length then
            let price_move := pyLast cp - idxNeg cp rising_bars
            if qabs price_move < 2/1000 * pyLast cp then
              if strength = "STRONG" ∨ strength = "MODERATE" then ts.2 - 7/10 else ts.2
            else ts.2
          else ts.2
      | none => ts.2
    let final_score := qmax (qmin score2 2) (-2)
    ⟨pyRound final_score 2, strength, ts.1, ""⟩

/-- `volume_spike_confirmed`: legacy boolean; note the body ignores
`threshold_multiplier`. -/
def volume_spike_confirmed (volume_history : List ℚ)
    (_threshold_multiplier : ℚ := 125/100) (lookback : ℕ := 20)
    (rising_bars : ℕ := 4) : Bool :=
  decide (1/2 < (analyze_volume volume_history none lookback rising_bars).score)

/-- `strategy/volatility_filter.py` context output. -/
structure VolatilityContext where
  state : String
  score : ℚ
  atr : ℚ
  move_pct_atr : ℚ
  comment : String
deriving Repr

/-- `analyze_volatility`: bucket the move-to-ATR ratio. -/
def analyze_volatility (current_move : ℚ) (atr_value : Option ℚ)
    (atr_history : List ℚ := []) : VolatilityContext :=
  match atr_value with
  | none => ⟨"UNKNOWN", 0, 0, 0, "ATR unavailable"⟩
  | some av =>
      if av ≤ 0 then ⟨"UNKNOWN", 0, 0, 0, "ATR unavailable"⟩
      else
        let move_pct_atr := qabs current_move / av
        if move_pct_atr < 75/100 then
          ⟨"CONTRACTING", -(6/10), pyRound av 6, pyRound move_pct_atr 2, "volatility_too_low"⟩
        else if move_pct_atr < 12/10 then
          ⟨"BUILDING", 2/10, pyRound av 6, pyRound move_pct_atr 2, "volatility_building"⟩
        else if move_pct_atr < 16/10 then
          let score : ℚ :=
            if atr_history ≠ [] ∧ 5 ≤ atr_history.length ∧
                idxNeg atr_history 3 < pyLast atr_history then 11/10 + 2/10
            else 11/10
          ⟨"EXPANDING", qmin score (3/2), pyRound av 6, pyRound move_pct_atr 2, ""⟩
        else
          ⟨"EXHAUSTION", -1, pyRound av 6, pyRound move_pct_atr 2, "volatility_spike_risk"⟩

/-- `strategy/liquidity_filter.py` context output. -/
structure LiquidityContext where
  score : ℚ
  level : String
  avg_volume : ℚ
  consistency : String
  comment : String
deriving Repr

/-- `analyze_liquidity`: average-volume thresholds with a consistency
penalty; score clamped to `[-2, 2]`. -/
def analyze_liquidity (volume_history : List ℚ) (min_avg_volume : ℚ := 250000)
    (lookback : ℕ := 12) : LiquidityContext :=
  if volume_history = [] ∨ volume_history.length < lookback then
    ⟨-2, "ILLIQUID", 0, "UNSTABLE", "Insufficient volume history"⟩
  else
    let recent := pyLastSlice lookback volume_history
    let avg_vol := recent.sum / (lookback : ℚ)
    let lb : String × ℚ :=
      if min_avg_volume * 4 ≤ avg_vol then ("HIGH", 2)
      else if min_avg_volume * 2 ≤ avg_vol then ("MEDIUM", 12/10)
      else if min_avg_volume ≤ avg_vol then ("LOW", 5/10)
      else ("ILLIQUID", -(3/2))
    let non_zero_bars := (recent.filter (fun v => decide (0 < v))).length
    let consistency_r : ℚ := (non_zero_bars : ℚ) / (lookback : ℚ)
    let cs : String × ℚ :=
      if consistency_r < 80/100 then ("UNSTABLE", lb.2 - 8/10) else ("STABLE", lb.2)
    let score := qmax (qmin cs.2 2) (-2)
    ⟨pyRound score 2, lb.1, pyRound avg_vol 0, cs.1, ""⟩

/-- `strategy/price_action.py`: result of `rejection_info`. -/
structure RejectionInfo where
  rejection_type : Option String
  rejection_score : ℚ
  upper_wick : ℚ
  lower_wick : ℚ
  body : ℚ
  range_w : ℚ
deriving Repr

/-- `rejection_info`: quantify rejection wicks of one bar. -/
def rejection_info (open_p high low close : ℚ) : RejectionInfo :=
  let body := qabs (close - open_p)
  let total_range := qmax (high - low) (1 / 1000000000)
  let upper_wick := qmax 0 (high - qmax close open_p)
  let lower_wick := qmax 0 (qmin close open_p - low)
  let upper_rel := upper_wick / total_range
  let lower_rel := lower_wick / total_range
  let body_rel := body / total_range
  let tsc : Option String × ℚ :=
    if body_rel * (3/2) < lower_rel ∧ 12/100 < lower_rel then
      (some "BULLISH", qmin 1 ((lower_rel - 12/100) / (6/10)))
    else if body_rel * (3/2) < upper_rel ∧ 12/100 < upper_rel then
      (some "BEARISH", qmin 1 ((upper_rel - 12/100) / (6/10)))
    else (none, 0)
  let tsc2 : Option String × ℚ :=
    if tsc.2 < 5/100 then (none, 0) else tsc
  { rejection_type := tsc2.1, rejection_score := pyRound tsc2.2 3,
    upper_wick := pyRound upper_wick 6, lower_wick := pyRound lower_wick 6,
    body := pyRound body 6, range_w := pyRound total_range 6 }

/-- `detect_pullback_in_trend` result dict. -/
structure PullbackInfo where
  ptype : String
  depth : ℚ
deriving Repr

/-- `detect_pullback_in_trend`: shallow pullback against the recent swing,
direction preferred from the EMAs when given. -/
def detect_pullback_in_trend (prices : List ℚ)
    (ema_short ema_long : Option ℚ := none) (lookback : ℕ := 4)
    (max_depth_pct : ℚ := 1/1000) : Option PullbackInfo :=
  if prices = [] ∨ prices.length < lookback + 1 then none
  else
    let last := pyLast prices
    let window := sliceNN (lookback + 1) 1 prices
    if window = [] then none
    else
      let recent_high := listMax window
      let recent_low := listMin window
      if recent_high ≤ 0 ∨ recent_low ≤ 0 then none
      else
        let pullback_up := (recent_high - last) / recent_high
        let pullback_down := (last - recent_low) / recent_low
        let trend : Option String :=
          match ema_short, ema_long with
          | some s, some l =>
              if l < s then some "UP" else if s < l then some "DOWN" else none
          | _, _ => none
        if trend = some "UP" ∧ 0 < pullback_up ∧ pullback_up ≤ max_depth_pct then
          some ⟨"PULLBACK_UP", pyRound pullback_up 6⟩
        else if trend = some "DOWN" ∧ 0 < pullback_down ∧ pullback_down ≤ max_depth_pct then
          some ⟨"PULLBACK_DOWN", pyRound pullback_down 6⟩
        else if trend = none ∧ 0 < pullback_up ∧ pullback_up ≤ max_depth_pct * (8/10) then
          some ⟨"PULLBACK_UP", pyRound pullback_up 6⟩
        else if trend = none ∧ 0 < pullback_down ∧ pullback_down ≤ max_depth_pct * (8/10) then
          some ⟨"PULLBACK_DOWN", pyRound pullback_down 6⟩
        else none

/-- `price_action_context` result dict. -/
structure PAContext where
  pullback : Option String
  pullback_depth : ℚ
  rejection_type : Option String
  rejection_score : ℚ
  score : ℚ
  comment : String
deriving Repr

/-- `price_action_context`: pullback plus wick-rejection scoring with
optional EMA-alignment adjustments, clamped to `[-1, 1]`. -/
def price_action_context (prices highs lows opens closes : List ℚ)
    (ema_short ema_long : Option ℚ := none) : PAContext :=
  if prices = [] ∨ highs = [] ∨ lows = [] ∨ closes = [] ∨ prices.length < 6 then
    ⟨none, 0, none, 0, 0, "insufficient data"⟩
  else
    let pb := detect_pullback_in_trend prices ema_short ema_long
    let pullback : Option String := pb.map (·.ptype)
    let pullback_depth : ℚ := (pb.map (·.depth)).getD 0
    let rej := rejection_info (pyLast opens) (pyLast highs) (pyLast lows) (pyLast closes)
    let s1 : ℚ :=
      if pullback = some "PULLBACK_UP" then 25/100
      else if pullback = some "PULLBACK_DOWN" then -(25/100) else 0
    let s2 : ℚ :=
      if rej.rejection_type = some "BULLISH" then s1 + 4/10 * rej.rejection_score
      else if rej.rejection_type = some "BEARISH" then s1 - 4/10 * rej.rejection_score
      else s1
    let s3 : ℚ :=
      match ema_short, ema_long with
      | some es, some el =>
          if el < es then
            let a := if pullback = some "PULLBACK_UP" ∨ rej.rejection_type = some "BULLISH"
                     then s2 + 15/100 else s2
            if rej.rejection_type = some "BEARISH" then a - 2/10 else a
          else if es < el then
            let a := if pullback = some "PULLBACK_DOWN" ∨ rej.rejection_type = some "BEARISH"
                     then s2 - 15/100 else s2
            if rej.rejection_type = some "BULLISH" then a + 0 else a
          else s2
      | _, _ => s2
    let s4 := if 1 < s3 then 1 else s3
    let s5 := if s4 < -1 then -1 else s4
    ⟨pullback, pullback_depth, rej.rejection_type, rej.rejection_score,
     pyRound s5 3, ""⟩

/-- Modelled from the spec: `strategy/indicators.py` is imported by
`strategy/htf_bias.py` but is not part of the repository snapshot.  The
spec describes the indicator library as "stateless numeric functions —
EMA ... pure functions of an ordered price/OHLC sequence" that "may
return None if not enough data": `None` for fewer than `period` prices,
else the standard EMA recurrence with multiplier `2/(period+1)` seeded by
the simple average of the first `period` prices. -/
def exponential_moving_average (prices : List ℚ) (period : ℕ) : Option ℚ :=
  if period = 0 ∨ prices.length < period then none
  else
    let k : ℚ := 2 / ((period : ℚ) + 1)
    let seed := (prices.take period).sum / (period : ℚ)
    some ((prices.drop period).foldl (fun e p => (p - e) * k + e) seed)

/-- Modelled from the spec: candidate support/resistance levels of
`strategy/sr_levels.py` (imported by the pullback detector but not in the
snapshot): "computed from recent highs/lows as candidate levels". -/
structure SRLevels where
  supports : List ℚ
  resistances : List ℚ
deriving Repr

/-- Modelled from the spec: `compute_sr_levels` — candidate levels from
recent highs/lows. -/
def compute_sr_levels (highs lows : List ℚ) : SRLevels :=
  ⟨[listMin (takeLast 20 lows)], [listMax (takeLast 20 highs)]⟩

/-- A nearest support/resistance hit as the pullback detector reads it
(keys `type`, `level`, `dist_pct`). -/
structure NearestSR where
  sr_type : String
  level : ℚ
  dist_pct : ℚ
deriving DecidableEq, Repr

/-- Modelled from the spec: `get_nearest_sr` — "nearest level search
returns the closest support/resistance within a maximum percentage
distance, tagged support or resistance". -/
def get_nearest_sr (price : ℚ) (sr : SRLevels) (max_search_pct : ℚ) :
    Option NearestSR :=
  if price ≤ 0 then none
  else
    let cands :=
      (sr.supports.map (fun l => NearestSR.mk "support" l (qabs (price - l) / price))) ++
      (sr.resistances.map (fun l => NearestSR.mk "resistance" l (qabs (price - l) / price)))
    match cands.filter (fun c => decide (c.dist_pct ≤ max_search_pct)) with
    | [] => none
    | x :: xs => some (xs.foldl (fun b c => if c.dist_pct < b.dist_pct then c else b) x)

/-- Modelled from the spec: `sr_location_score` (from `sr_levels.py`, not
in the snapshot) — "a location-quality score that grows as proximity
increases", zero when no level was found. -/
def sr_location_score (price : ℚ) (nearest : Option NearestSR)
    (direction : String) : ℚ :=
  match nearest with
  | none => 0
  | some n => qmin (qmax ((3/100 - n.dist_pct) * 40) 0) 2

/-- `strategy/htf_bias.py` output object. -/
structure HTFBias where
  direction : String
  strength : ℚ
  label : String
  comment : String
deriving Repr

/-- Step 2 of `get_htf_bias`: EMA separation normalized by the recent
price range. -/
def htf_base_strength (prices : List ℚ) (ema_diff : ℚ) : ℚ :=
  let lookback_for_range := min 20 prices.length
  let recent_slice := takeLast lookback_for_range prices
  let recent_range := listMax recent_slice - listMin recent_slice
  if recent_range ≤ 0 then 3/2
  else qmin (qabs ema_diff / recent_range * 10) 6

/-- Step 3 of `get_htf_bias`: the `strength += 1.0` maturity reward when
the EMA separation a few bars back already pointed the same way. -/
def htf_maturity_bonus (prices : List ℚ) (direction : String)
    (short_period long_period : ℕ) : ℚ :=
  if long_period + 10 ≤ prices.length then
    let past_prices := dropLastN 5 prices
    match exponential_moving_average past_prices short_period,
          exponential_moving_average past_prices long_period with
    | some ps, some pl =>
        if (direction = "BULLISH" ∧ 0 < ps - pl) ∨
           (direction = "BEARISH" ∧ ps - pl < 0) then 1
        else 0
    | _, _ => 0
  else 0

/-- Step 4 of `get_htf_bias`: the ±1 VWAP-side nudge. -/
def htf_vwap_adjust (direction : String) (price : ℚ) (vwap_value : Option ℚ)
    (vwap_tolerance : ℚ) : ℚ :=
  match vwap_value with
  | some v =>
      if 0 < v then
        let dist := (price - v) / v
        if direction = "BULLISH" then
          if vwap_tolerance < dist then 1
          else if dist < -vwap_tolerance then -1
          else 0
        else
          if dist < -vwap_tolerance then 1
          else if vwap_tolerance < dist then -1
          else 0
      else 0
  | none => 0

/-- `get_htf_bias`: EMA(14) vs EMA(34) direction; strength from the EMA
separation normalized by the recent range (`htf_base_strength`), plus the
maturity reward and VWAP nudge, clamped to `[0.8, 10]` on the directional
paths. -/
def get_htf_bias (prices : List ℚ) (vwap_value : Option ℚ := none)
    (short_period : ℕ := 14) (long_period : ℕ := 34)
    (vwap_tolerance : ℚ := 8/1000) : HTFBias :=
  if prices = [] ∨ prices.length < long_period + 5 then
    ⟨"NEUTRAL", 1/2, "NEUTRAL", "Insufficient HTF data"⟩
  else
    match exponential_moving_average prices short_period,
          exponential_moving_average prices long_period with
    | none, _ => ⟨"NEUTRAL", 1/2, "NEUTRAL", "EMA unavailable"⟩
    | _, none => ⟨"NEUTRAL", 1/2, "NEUTRAL", "EMA unavailable"⟩
    | some ema_short, some ema_long =>
        let price := pyLast prices
        let ema_diff := ema_short - ema_long
        if ema_diff = 0 then ⟨"NEUTRAL", 1, "NEUTRAL", "Flat EMA"⟩
        else
          let direction := if 0 < ema_diff then "BULLISH" else "BEARISH"
          let strength2 :=
            htf_base_strength prices ema_diff +
            htf_maturity_bonus prices direction short_period long_period +
            htf_vwap_adjust direction price vwap_value vwap_tolerance
          let strength := qmax (8/10) (qmin (pyRound strength2 2) 10)
          let label :=
            if direction = "BULLISH" then
              if 6 ≤ strength then "BULLISH_STRONG" else "BULLISH_WEAK"
            else
              if 6 ≤ strength then "BEARISH_STRONG" else "BEARISH_WEAK"
          ⟨direction, strength, label, ""⟩

/-- `strategy/market_regime.py` output object. -/
structure MarketRegime where
  state : String
  mode : String
  strength : ℚ
  volatility : ℚ
  comment : String
deriving Repr

/-- The `cap` helper of `detect_market_regime`. -/
def regime_cap (x : ℚ) : ℚ := qmax 0 (qmin 10 x)

/-- `detect_market_regime`: ADX plus range expansion/contraction classify
WEAK / COMPRESSION / EARLY_TREND / TRENDING / EXHAUSTION; an optional
index regime nudges the strength of the default WEAK result. -/
def detect_market_regime (highs lows closes : List ℚ)
    (index_regime : Option MarketRegime := none) (min_bars : ℕ := 25) :
    MarketRegime :=
  if highs.length < min_bars ∨ lows.length < min_bars ∨ closes.length < min_bars then
    ⟨"WEAK", "RANGE_DAY", 1/2, 0, "Insufficient data"⟩
  else
    match compute_adx highs lows closes, compute_atr highs lows closes with
    | none, _ => ⟨"WEAK", "RANGE_DAY", 1/2, 0, "Indicators unavailable"⟩
    | _, none => ⟨"WEAK", "RANGE_DAY", 1/2, 0, "Indicators unavailable"⟩
    | some adx, some atr =>
        let recent_n := min 10 closes.length
        let avg_price :=
          if 0 < recent_n then (pyLastSlice recent_n closes).sum / (recent_n : ℚ) else 1
        let vol_norm := if 0 < avg_price then atr / avg_price else 0
        let recent_range := listMax (takeLast 10 highs) - listMin (takeLast 10 lows)
        let prev_highs :=
          if 20 ≤ highs.length then sliceNN 20 10 highs else highs.take (highs.length / 2)
        let prev_lows :=
          if 20 ≤ lows.length then sliceNN 20 10 lows else lows.take (lows.length / 2)
        let prev_range0 :=
          if prev_highs ≠ [] ∧ prev_lows ≠ [] then listMax prev_highs - listMin prev_lows
          else 0
        let prev_range :=
          if prev_range0 ≤ 0 then qmax (recent_range * (8/10)) (1/1000000000)
          else prev_range0
        if 15 ≤ adx ∧ prev_range * (13/10) < recent_range then
          ⟨"EARLY_TREND", "TREND_DAY", regime_cap (45/10 + (adx - 15) * (2/10)),
           vol_norm, "Fresh expansion with momentum"⟩
        else if 22 ≤ adx then
          ⟨"TRENDING", "TREND_DAY", regime_cap (65/10 + (adx - 22) * (15/100)),
           vol_norm, "Established directional trend"⟩
        else if recent_range < prev_range * (7/10) then
          ⟨"COMPRESSION", "RANGE_DAY",
           regime_cap (25/10 + (prev_range - recent_range) / (prev_range + 1/1000000000)),
           vol_norm, "Volatility contraction"⟩
        else if 28 < adx ∧ recent_range < prev_range * (85/100) ∧ vol_norm < 8/1000 then
          ⟨"EXHAUSTION", "RANGE_DAY", regime_cap (35/10 + (adx - 28) * (1/10)),
           vol_norm, "Trend losing energy"⟩
        else
          let strength0 := regime_cap (3/2 + adx / 30 * (12/10))
          let strength :=
            match index_regime with
            | some ir =>
                if ir.mode = "TREND_DAY" then
                  regime_cap (strength0 + qmin (12/10) (ir.strength * (15/100)))
                else regime_cap (strength0 - 7/10)
            | none => strength0
          ⟨"WEAK", "RANGE_DAY", strength, vol_norm, "Low momentum / mixed structure"⟩

/-- `detect_compression` (`strategy/breakout_detector.py`): range
contraction of the recent window against the previous one. -/
def detect_compression (prices : List ℚ) (lookback : ℕ := 20)
    (compression_r : ℚ := 65/100) : Bool :=
  if prices.length < lookback * 2 then false
  else
    let recent := pyLastSlice lookback prices
    let previous := sliceNN (lookback * 2) lookback prices
    let recent_range := listMax recent - listMin recent
    let previous_range := listMax previous - listMin previous
    if previous_range ≤ 0 then false
    else decide (recent_range < previous_range * compression_r)

/-- `breakout_signal` result dict; the three `components` entries are the
fields ending in `_c`. -/
structure BreakoutSignal where
  signal : String
  direction : String
  intent_score : ℚ
  compression_c : ℚ
  atr_expansion_c : ℚ
  volume_c : ℚ
  range_high : ℚ
  range_low : ℚ
  last_price : ℚ
  atr : Option ℚ
  atr_ok : Bool
  volume_ok : Bool
  raw_flag : String
deriving Repr

/-- The `atr_ok` flag of `breakout_signal`: the ATR is available and
nonzero and the one-bar displacement reaches `atr_multiplier` times it. -/
def breakout_atr_ok (prices high_prices low_prices close_prices : List ℚ)
    (atr_multiplier : ℚ) : Bool :=
  if high_prices ≠ [] ∧ low_prices ≠ [] ∧ close_prices ≠ [] then
    match compute_atr high_prices low_prices close_prices 14 with
    | some a =>
        decide (a ≠ 0 ∧ a * atr_multiplier ≤ qabs (pyLast prices - idxNeg prices 2))
    | none => false
  else false

/-- The `atr` field returned by `breakout_signal`
(`round(atr_val, 6) if atr_val else None`). -/
def breakout_atr_field (high_prices low_prices close_prices : List ℚ) : Option ℚ :=
  if high_prices ≠ [] ∧ low_prices ≠ [] ∧ close_prices ≠ [] then
    match compute_atr high_prices low_prices close_prices 14 with
    | some a => if a ≠ 0 then some (pyRound a 6) else none
    | none => none
  else none

/-- The `volume_ok` flag of `breakout_signal`. -/
def breakout_volume_ok (volume_history : List ℚ) (vol_threshold : ℚ) : Bool :=
  decide (volume_history ≠ [] ∧ 20 ≤ volume_history.length) &&
    volume_spike_confirmed volume_history vol_threshold

/-- `breakout_signal`: direction only from a breach of the trailing 20-bar
range; CONFIRMED requires ATR displacement or a volume spike (note the
body of `volume_spike_confirmed` ignores the 1.4 threshold argument). -/
def breakout_signal (inst_key : String) (prices : List ℚ)
    (volume_history : List ℚ := []) (high_prices : List ℚ := [])
    (low_prices : List ℚ := []) (close_prices : List ℚ := [])
    (breakout_pct : ℚ := 3/1000) (vol_threshold : ℚ := 14/10)
    (atr_multiplier : ℚ := 1) : Option BreakoutSignal :=
  if prices.length < 25 then none
  else
    let last_price := pyLast prices
    let base := sliceNN 21 1 prices
    let range_high := listMax base
    let range_low := listMin base
    if ¬ (range_high < last_price ∨ last_price < range_low) then none
    else
      let direction := if range_high < last_price then "LONG" else "SHORT"
      let compression_c : ℚ := if detect_compression prices then 1 else 0
      let atr_ok := breakout_atr_ok prices high_prices low_prices close_prices atr_multiplier
      let atr_expansion_c : ℚ := if atr_ok then 3/2 else 0
      let volume_ok := breakout_volume_ok volume_history vol_threshold
      let volume_c : ℚ := if volume_ok then 12/10 else 0
      let intent_score := compression_c + atr_expansion_c + volume_c
      let signal := if atr_ok || volume_ok then "CONFIRMED" else "POTENTIAL"
      some { signal := signal, direction := direction,
             intent_score := pyRound intent_score 2,
             compression_c := compression_c, atr_expansion_c := atr_expansion_c,
             volume_c := volume_c, range_high := range_high,
             range_low := range_low, last_price := last_price,
             atr := breakout_atr_field high_prices low_prices close_prices,
             atr_ok := atr_ok, volume_ok := volume_ok,
             raw_flag := signal ++ "_" ++ direction }

/-- `detect_pullback_signal` result dict.  The five `components` entries
of the source are exactly the rounded summands of
`pullback_total_score`; only the fields the callers read are kept. -/
structure PullbackSignal where
  signal : String
  direction : String
  score : ℚ
  nearest_level : NearestSR
  reason : String
deriving Repr

/-- The additive total of `detect_pullback_signal` right before its
classification: the sum of the five rounded component scores, minus the
extension penalty when the recent move exceeds twice the ATR. -/
def pullback_total_score (prices highs lows closes volumes : List ℚ)
    (htf_direction direction : String) (nearest : NearestSR)
    (max_proximity : ℚ) : ℚ :=
  let atr := compute_atr highs lows closes
  let recent_move := qabs (pyLast closes - idxNeg closes 6)
  let extended : Bool :=
    match atr with
    | some a => decide (a ≠ 0 ∧ a * 2 < recent_move)
    | none => false
  let volat_ctx := analyze_volatility (pyLast closes - idxNeg closes 2) atr
  let volatility_score : ℚ :=
    if volat_ctx.state = "EXPANDING" then 3/2
    else if volat_ctx.state = "BUILDING" then 8/10
    else if volat_ctx.state = "CONTRACTING" then 2/10
    else 0
  let last_bar_rejection :=
    rejection_info (idxNeg closes 2) (pyLast highs) (pyLast lows) (pyLast closes)
  let pa1 : ℚ :=
    if direction = "LONG" ∧ last_bar_rejection.rejection_type = some "BULLISH" then 18/10
    else 0
  let pa2 : ℚ :=
    if direction = "SHORT" ∧ last_bar_rejection.rejection_type = some "BEARISH" then
      pa1 + 18/10
    else pa1
  let pa3 : ℚ :=
    if direction = "LONG" ∧ idxNeg closes 3 < pyLast closes then pa2 + 1 else pa2
  let pa4 : ℚ :=
    if direction = "SHORT" ∧ pyLast closes < idxNeg closes 3 then pa3 + 1 else pa3
  let recent_range := listMax (takeLast 5 highs) - listMin (takeLast 5 lows)
  let price_action_score : ℚ :=
    match atr with
    | some a => if a ≠ 0 ∧ recent_range < a * (7/10) then pa4 + 8/10 else pa4
    | none => pa4
  let vol_ctx := analyze_volume volumes (some closes)
  let volume_score : ℚ :=
    if 1 ≤ vol_ctx.score then 3/2
    else if 2/10 ≤ vol_ctx.score then 8/10
    else if 0 ≤ vol_ctx.score then 3/10
    else 0
  let short_term_trend := pyLast closes - idxNeg closes 5
  let momentum_score : ℚ :=
    if direction = "LONG" ∧ 0 < short_term_trend then 1
    else if direction = "SHORT" ∧ short_term_trend < 0 then 1
    else 0
  let proximity_score := qmin (qmax ((max_proximity - nearest.dist_pct) * 40) 0) 2
  let total0 :=
    pyRound proximity_score 2 + pyRound price_action_score 2 +
    pyRound volume_score 2 + pyRound volatility_score 2 + pyRound momentum_score 2
  if extended then total0 - 1 else total0

/-- `detect_pullback_signal`: structural location near a support (bullish
HTF) or resistance (bearish HTF), then an additive score over location,
price action, volume, volatility and momentum, with an extension penalty;
CONFIRMED at 4.2, POTENTIAL at 2.8, otherwise `None`. -/
def detect_pullback_signal (prices highs lows closes volumes : List ℚ)
    (htf_direction : String) (max_proximity : ℚ := 3/100)
    (min_bars : ℕ := 30) : Option PullbackSignal :=
  if prices.length < min_bars then none
  else
    let last_price := pyLast closes
    let sr := compute_sr_levels highs lows
    match get_nearest_sr last_price sr max_proximity with
    | none => none
    | some nearest =>
        let trade_direction : Option String :=
          if nearest.sr_type = "support" ∧ htf_direction = "BULLISH" then some "LONG"
          else if nearest.sr_type = "resistance" ∧ htf_direction = "BEARISH" then
            some "SHORT"
          else none
        match trade_direction with
        | none => none
        | some direction =>
            let total :=
              pullback_total_score prices highs lows closes volumes
                htf_direction direction nearest max_proximity
            if 42/10 ≤ total then
              some { signal := "CONFIRMED", direction := direction,
                     score := pyRound total 2, nearest_level := nearest,
                     reason := "CONFIRMED_" ++ direction }
            else if 28/10 ≤ total then
              some { signal := "POTENTIAL", direction := direction,
                     score := pyRound total 2, nearest_level := nearest,
                     reason := "POTENTIAL_" ++ direction }
            else none

/-- `strategy/decision_engine.py` output object; `components` keeps the
numeric breakdown in insertion order. -/
structure DecisionResult where
  state : String
  score : ℚ
  direction : Option String
  components : List (String × ℚ)
  reason : String
deriving Repr

/-- The `pullback_signal` argument as `final_trade_decision` reads it:
`["signal"]`, `["direction"]` and `.get("nearest_level")`. -/
structure DecisionSignalIn where
  signal : String
  direction : String
  nearest_level : Option NearestSR
deriving Repr

/-- Stage 1 of `final_trade_decision`: base structure score. -/
def decision_structure_score (sig : DecisionSignalIn) : ℚ :=
  if sig.signal = "CONFIRMED" then 3 else 18/10

/-- Stage 2: softened higher-timeframe alignment. -/
def decision_htf_score (direction htf_bias_direction : String) : ℚ :=
  if direction = "LONG" then
    if htf_bias_direction = "BULLISH" then 3/2 else -1
  else
    if htf_bias_direction = "BEARISH" then 3/2 else -1

/-- Stage 3: market regime converted to scoring. -/
def decision_regime_score (market_regime : String) : ℚ :=
  if market_regime = "TRENDING" then 14/10
  else if market_regime = "EARLY_TREND" then 1
  else if market_regime = "COMPRESSION" then -(8/10)
  else if market_regime = "WEAK" then -(12/10)
  else 0

/-- Stage 4: VWAP context score with a small directional adjustment. -/
def decision_vwap_score (vwap_ctx : VWAPContext) (direction : String) : ℚ :=
  let v1 := vwap_ctx.score
  let v2 := if direction = "LONG" ∧ vwap_ctx.acceptance = "BELOW" then v1 - 8/10 else v1
  if direction = "SHORT" ∧ vwap_ctx.acceptance = "ABOVE" then v2 - 8/10 else v2

/-- Stage 5: volume quality buckets. -/
def decision_volume_score (volumes closes : List ℚ) : ℚ :=
  let vol_ctx := analyze_volume volumes (some closes)
  if 1 ≤ vol_ctx.score then 12/10
  else if 2/10 ≤ vol_ctx.score then 6/10
  else if vol_ctx.score < 0 then -1
  else 0

/-- Stage 6: volatility context buckets. -/
def decision_volatility_score (highs lows closes : List ℚ) : ℚ :=
  let atr := compute_atr highs lows closes
  let move := if 1 < closes.length then pyLast closes - idxNeg closes 2 else 0
  let volat_ctx := analyze_volatility move atr
  if volat_ctx.state = "EXPANDING" then 12/10
  else if volat_ctx.state = "BUILDING" then 7/10
  else if volat_ctx.state = "CONTRACTING" then -(6/10)
  else if volat_ctx.state = "EXHAUSTION" then -1
  else 0

/-- Stage 7: liquidity safety buckets. -/
def decision_liquidity_score (volumes : List ℚ) : ℚ :=
  let liq_ctx := analyze_liquidity volumes
  if 1 ≤ liq_ctx.score then 1
  else if 0 ≤ liq_ctx.score then 1/2
  else -(12/10)

/-- Stage 8: weighted price-action timing score (the source passes the
closes list for the prices and opens arguments). -/
def decision_pa_score (highs lows closes : List ℚ) : ℚ :=
  (price_action_context closes highs lows closes closes).score * (13/10)

/-- Stage 9: support/resistance location bonus (unweighted; the running
score adds it with weight 1.1). -/
def decision_sr_score (closes : List ℚ) (sig : DecisionSignalIn) : ℚ :=
  sr_location_score (pyLast closes) sig.nearest_level sig.direction

/-- The running score of `final_trade_decision` before the final clamp:
the sum of the nine stage contributions (the SR score weighted by 1.1). -/
def decision_component_sum (highs lows closes volumes : List ℚ)
    (market_regime : String) (htf_bias_direction : String)
    (vwap_ctx : VWAPContext) (sig : DecisionSignalIn) : ℚ :=
  decision_structure_score sig +
  decision_htf_score sig.direction htf_bias_direction +
  decision_regime_score market_regime +
  decision_vwap_score vwap_ctx sig.direction +
  decision_volume_score volumes closes +
  decision_volatility_score highs lows closes +
  decision_liquidity_score volumes +
  decision_pa_score highs lows closes +
  decision_sr_score closes sig * (11/10)

/-- `final_trade_decision`: no pullback signal short-circuits to IGNORE;
otherwise sum the stage scores, clamp to `[0, 10]`, round to 2 decimals,
and pick EXECUTE at 5.5 / PREPARE at 3.5 / IGNORE below, attaching the
direction only to non-IGNORE states. -/
def final_trade_decision (inst_key : String)
    (prices highs lows closes volumes : List ℚ) (market_regime : String)
    (htf_bias_direction : String) (vwap_ctx : VWAPContext)
    (pullback_signal : Option DecisionSignalIn) : DecisionResult :=
  match pullback_signal with
  | none => ⟨"IGNORE", 0, none, [], "no pullback setup"⟩
  | some sig =>
      let direction := sig.direction
      let components : List (String × ℚ) :=
        [("structure", decision_structure_score sig),
         ("htf", decision_htf_score direction htf_bias_direction),
         ("regime", decision_regime_score market_regime),
         ("vwap", decision_vwap_score vwap_ctx direction),
         ("volume", decision_volume_score volumes closes),
         ("volatility", decision_volatility_score highs lows closes),
         ("liquidity", decision_liquidity_score volumes),
         ("price_action", pyRound (decision_pa_score highs lows closes) 2),
         ("sr", decision_sr_score closes sig)]
      let total :=
        decision_component_sum highs lows closes volumes market_regime
          htf_bias_direction vwap_ctx sig
      let score := pyRound (qmax (qmin total 10) 0) 2
      if 55/10 ≤ score then
        ⟨"EXECUTE_" ++ direction, score, some direction, components,
         "high quality pullback trade"⟩
      else if 35/10 ≤ score then
        ⟨"PREPARE_" ++ direction, score, some direction, components,
         "developing pullback setup"⟩
      else
        ⟨"IGNORE", score, none, components, "insufficient edge"⟩

/-- Mutable state a `StrategyEngine` carries across evaluations: the bar
store, the per-instrument VWAP calculators dictionary, and the MTF
builder's per-instrument 5-minute buffers. -/
structure StrategyEngine where
  scanner : MarketScanner
  vwap_calculators : List (String × VWAPCalculator)
  mtf_buffers : List (String × List Bar)
deriving Repr

/-- Outcome of one `StrategyEngine.evaluate` call: returning `None`,
raising an exception, or returning a `DecisionResult`. -/
inductive EvalResult where
  | noneR : EvalResult
  | raises : EvalResult
  | decision (d : DecisionResult) : EvalResult
deriving Repr

/-- The parameter names of `final_trade_decision`
(`strategy/decision_engine.py`, lines 31-42). -/
def final_trade_decision_params : List String :=
  ["inst_key", "prices", "highs", "lows", "closes", "volumes",
   "market_regime", "htf_bias_direction", "vwap_ctx", "pullback_signal"]

/-- The keyword names `StrategyEngine.evaluate` supplies at its call of
`final_trade_decision` (`strategy/strategy_engine.py`, lines 152-163). -/
def evaluate_call_keywords : List String :=
  ["inst_key", "prices", "highs", "lows", "closes", "volumes",
   "market_regime", "htf_bias_label", "vwap_ctx", "breakout_signal"]

/-- Python keyword binding succeeds only when every supplied keyword is a
declared parameter; otherwise the call raises `TypeError` ("unexpected
keyword argument"). -/
def evaluate_call_binds : Bool :=
  evaluate_call_keywords.all (final_trade_decision_params.contains ·)

/-- The last-bar volume `evaluate` feeds the VWAP update
(`volumes[-1] if volumes else 0`). -/
def last_volume (volumes : List ℚ) : ℚ := if volumes ≠ [] then pyLast volumes else 0

/-- The VWAP calculator for `inst_key` after the one `update(ltp, ...)`
call of `evaluate` (a fresh calculator is registered on first touch). -/
def vwap_calc_after (eng : StrategyEngine) (inst_key : String) (ltp : ℚ) :
    VWAPCalculator :=
  let calc0 := (alistGet eng.vwap_calculators inst_key).getD VWAPCalculator.init
  (vwap_update calc0 ltp (last_volume (get_volumes eng.scanner inst_key))).2

/-- The MTF buffers after `evaluate` has fed the most recent scanner bar
to the builder (unchanged when the instrument has no bars). -/
def mtf_buffers_after (eng : StrategyEngine) (inst_key : String) :
    List (String × List Bar) :=
  match get_last_n_bars eng.scanner inst_key 1 with
  | [] => eng.mtf_buffers
  | bar :: _ =>
      mtf_update eng.mtf_buffers inst_key bar.time bar.open_p bar.high_p
        bar.low_p bar.close_p bar.volume

/-- The `MTFContext` computed inside `evaluate` (after the builder
update); `none` when the instrument has no bars at all. -/
def mtf_context_of (eng : StrategyEngine) (inst_key : String) :
    Option MTFContext :=
  match get_last_n_bars eng.scanner inst_key 1 with
  | [] => none
  | _ :: _ =>
      let buf := mtf_buffers_after eng inst_key
      some (analyze_mtf (get_latest_15m buf inst_key) (get_latest_30m buf inst_key)
        (get_tf_history buf inst_key 15 3) (get_tf_history buf inst_key 30 3))


/-- Stage 6 of `evaluate` (breakout detection, alignment gates, and the
`final_trade_decision` call).  The call passes keywords `htf_bias_label`
and `breakout_signal`, which are not parameters of `final_trade_decision`
(`htf_bias_direction` / `pullback_signal`), so Python raises `TypeError`
there; the `evaluate_call_binds` branch records the binding the call
names intend but is never taken. -/
def evaluate_breakout_stage (eng2 : StrategyEngine) (inst_key : String)
    (prices highs lows closes volumes : List ℚ) (mtf_direction : String)
    (regime_state : String) (htf_label : String) (vwap_ctx : VWAPContext) :
    EvalResult × StrategyEngine :=
  match breakout_signal inst_key prices volumes highs lows closes with
  | none => (.noneR, eng2)
  | some brk =>
      if brk.direction = "LONG" ∧ mtf_direction ≠ "BULLISH" then (.noneR, eng2)
      else if brk.direction = "SHORT" ∧ mtf_direction ≠ "BEARISH" then (.noneR, eng2)
      else if evaluate_call_binds then
        (.decision (final_trade_decision inst_key prices highs lows closes volumes
           regime_state htf_label vwap_ctx (some ⟨brk.signal, brk.direction, none⟩)),
         eng2)
      else (.raises, eng2)

/-- Stages 4-5 of `evaluate`: register/update the instrument's VWAP
calculator (the one state mutation of these stages), read its context,
compute the HTF bias, and apply the HTF-opposition gate. -/
def vwap_stage_calc (eng1 : StrategyEngine) (inst_key : String) (ltp : ℚ)
    (volumes : List ℚ) : VWAPCalculator :=
  (vwap_update ((alistGet eng1.vwap_calculators inst_key).getD VWAPCalculator.init)
    ltp (last_volume volumes)).2

def evaluate_vwap_stage (eng1 : StrategyEngine) (inst_key : String) (ltp : ℚ)
    (prices highs lows closes volumes : List ℚ) (mtf_direction : String)
    (regime_state : String) : EvalResult × StrategyEngine :=
  let vwap_calc' := vwap_stage_calc eng1 inst_key ltp volumes
  let eng2 : StrategyEngine :=
    { eng1 with vwap_calculators := alistSet eng1.vwap_calculators inst_key vwap_calc' }
  let vwap_ctx := vwap_get_context vwap_calc' ltp
  let htf_bias := get_htf_bias prices vwap_ctx.vwap
  if mtf_direction = "BULLISH" ∧ htf_bias.direction = "BEARISH" then (.noneR, eng2)
  else if mtf_direction = "BEARISH" ∧ htf_bias.direction = "BULLISH" then (.noneR, eng2)
  else evaluate_breakout_stage eng2 inst_key prices highs lows closes volumes
    mtf_direction regime_state htf_bias.label vwap_ctx

/-- Stage 3 of `evaluate`: the market-regime filter. -/
def evaluate_regime_stage (eng1 : StrategyEngine) (inst_key : String) (ltp : ℚ)
    (prices highs lows closes volumes : List ℚ) (mtf_direction : String) :
    EvalResult × StrategyEngine :=
  let regime := detect_market_regime highs lows closes
  if regime.state = "WEAK" ∨ regime.state = "COMPRESSION" then (.noneR, eng1)
  else evaluate_vwap_stage eng1 inst_key ltp prices highs lows closes volumes
    mtf_direction regime.state

/-- `StrategyEngine.evaluate`: data-sufficiency gate, MTF builder update,
hard MTF gate, then the remaining stages. -/
def evaluate (eng : StrategyEngine) (inst_key : String) (ltp : ℚ) :
    EvalResult × StrategyEngine :=
  if ¬ has_enough_data eng.scanner inst_key 30 then (.noneR, eng)
  else
    let prices := get_prices eng.scanner inst_key
    let highs := get_highs eng.scanner inst_key
    let lows := get_lows eng.scanner inst_key
    let closes := get_closes eng.scanner inst_key
    let volumes := get_volumes eng.scanner inst_key
    if prices = [] ∨ highs = [] ∨ lows = [] ∨ closes = [] ∨ volumes = [] then
      (.noneR, eng)
    else
      match get_last_n_bars eng.scanner inst_key 1 with
      | [] => (.noneR, eng)
      | _ :: _ =>
          let eng1 : StrategyEngine :=
            { eng with mtf_buffers := mtf_buffers_after eng inst_key }
          match mtf_context_of eng inst_key with
          | none => (.noneR, eng1)
          | some mtf_ctx =>
              if mtf_ctx.direction = "NEUTRAL" then (.noneR, eng1)
              else if mtf_ctx.conflict then (.noneR, eng1)
              else evaluate_regime_stage eng1 inst_key ltp prices highs lows
                closes volumes mtf_ctx.direction

/-- The gates of `evaluate_breakout_stage` pass: a breakout signal is
present and aligned with the MTF direction. -/
def breakout_gates_pass (inst_key : String)
    (prices highs lows closes volumes : List ℚ) (mtf_direction : String) : Bool :=
  match breakout_signal inst_key prices volumes highs lows closes with
  | none => false
  | some brk =>
      if brk.direction = "LONG" ∧ mtf_direction ≠ "BULLISH" then false
      else if brk.direction = "SHORT" ∧ mtf_direction ≠ "BEARISH" then false
      else true

/-- The gates of `evaluate_vwap_stage` pass: the HTF bias (computed from
the updated VWAP calculator's context) does not oppose the MTF direction,
and the breakout gates pass. -/
def vwap_stage_gates_pass (eng1 : StrategyEngine) (inst_key : String) (ltp : ℚ)
    (prices highs lows closes volumes : List ℚ) (mtf_direction : String) : Bool :=
  let vwap_ctx := vwap_get_context (vwap_stage_calc eng1 inst_key ltp volumes) ltp
  let htf_bias := get_htf_bias prices vwap_ctx.vwap
  if mtf_direction = "BULLISH" ∧ htf_bias.direction = "BEARISH" then false
  else if mtf_direction = "BEARISH" ∧ htf_bias.direction = "BULLISH" then false
  else breakout_gates_pass inst_key prices highs lows closes volumes mtf_direction

/-- All veto gates of `evaluate` pass for this state: enough data,
nonempty series, a last bar, MTF direction non-NEUTRAL and
non-conflicting, regime neither WEAK nor COMPRESSION, HTF bias not
opposing, and an aligned breakout signal present. -/
def gates_pass (eng : StrategyEngine) (inst_key : String) (ltp : ℚ) : Bool :=
  if ¬ has_enough_data eng.scanner inst_key 30 then false
  else
    let prices := get_prices eng.scanner inst_key
    let highs := get_highs eng.scanner inst_key
    let lows := get_lows eng.scanner inst_key
    let closes := get_closes eng.scanner inst_key
    let volumes := get_volumes eng.scanner inst_key
    if prices = [] ∨ highs = [] ∨ lows = [] ∨ closes = [] ∨ volumes = [] then false
    else
      match get_last_n_bars eng.scanner inst_key 1 with
      | [] => false
      | _ :: _ =>
          match mtf_context_of eng inst_key with
          | none => false
          | some mtf_ctx =>
              if mtf_ctx.direction = "NEUTRAL" then false
              else if mtf_ctx.conflict then false
              else
                let eng1 : StrategyEngine :=
                  { eng with mtf_buffers := mtf_buffers_after eng inst_key }
                let regime := detect_market_regime highs lows closes
                if regime.state = "WEAK" ∨ regime.state = "COMPRESSION" then false
                else vwap_stage_gates_pass eng1 inst_key ltp prices highs lows
                  closes volumes mtf_ctx.direction

/-- A concrete instrument state on which every veto gate of `evaluate`
passes: 30 strictly rising 5-minute bars (a high-ADX TRENDING regime, the
last close breaking above the trailing 20-bar range, 30 bars keeping the
HTF bias NEUTRAL) and two prior bars in the MTF builder buffer making the
aggregated 15m candle bullish. -/
def witness_bars : List Bar :=
  [⟨0, 99, 100, 99, 199/2, 300000⟩,
   ⟨300, 100, 101, 100, 201/2, 300000⟩,
   ⟨600, 101, 102, 101, 203/2, 300000⟩,
   ⟨900, 102, 103, 102, 205/2, 300000⟩,
   ⟨1200, 103, 104, 103, 207/2, 300000⟩,
   ⟨1500, 104, 105, 104, 209/2, 300000⟩,
   ⟨1800, 105, 106, 105, 211/2, 300000⟩,
   ⟨2100, 106, 107, 106, 213/2, 300000⟩,
   ⟨2400, 107, 108, 107, 215/2, 300000⟩,
   ⟨2700, 108, 109, 108, 217/2, 300000⟩,
   ⟨3000, 109, 110, 109, 219/2, 300000⟩,
   ⟨3300, 110, 111, 110, 221/2, 300000⟩,
   ⟨3600, 111, 112, 111, 223/2, 300000⟩,
   ⟨3900, 112, 113, 112, 225/2, 300000⟩,
   ⟨4200, 113, 114, 113, 227/2, 300000⟩,
   ⟨4500, 114, 115, 114, 229/2, 300000⟩,
   ⟨4800, 115, 116, 115, 231/2, 300000⟩,
   ⟨5100, 116, 117, 116, 233/2, 300000⟩,
   ⟨5400, 117, 118, 117, 235/2, 300000⟩,
   ⟨5700, 118, 119, 118, 237/2, 300000⟩,
   ⟨6000, 119, 120, 119, 239/2, 300000⟩,
   ⟨6300, 120, 121, 120, 241/2, 300000⟩,
   ⟨6600, 121, 122, 121, 243/2, 300000⟩,
   ⟨6900, 122, 123, 122, 245/2, 300000⟩,
   ⟨7200, 123, 124, 123, 247/2, 300000⟩,
   ⟨7500, 124, 125, 124, 249/2, 300000⟩,
   ⟨7800, 125, 126, 125, 251/2, 300000⟩,
   ⟨8100, 126, 127, 126, 253/2, 300000⟩,
   ⟨8400, 127, 128, 127, 255/2, 300000⟩,
   ⟨8700, 128, 129, 128, 257/2, 300000⟩]

def witness_mtf_pre : List Bar :=
  [⟨8100, 100, 101, 99, 101, 10⟩, ⟨8400, 101, 102, 100, 102, 10⟩]

def witness_engine : StrategyEngine :=
  ⟨⟨400, [("X", witness_bars)], 0, 0⟩, [], [("X", witness_mtf_pre)]⟩

/-- The series of `witness_engine`'s instrument, spelled out. -/
def wcloses : List ℚ := [199/2, 201/2, 203/2, 205/2, 207/2, 209/2, 211/2, 213/2, 215/2, 217/2, 219/2, 221/2, 223/2, 225/2, 227/2, 229/2, 231/2, 233/2, 235/2, 237/2, 239/2, 241/2, 243/2, 245/2, 247/2, 249/2, 251/2, 253/2, 255/2, 257/2]

def whighs : List ℚ := [100, 101, 102, 103, 104, 105, 106, 107, 108, 109, 110, 111, 112, 113, 114, 115, 116, 117, 118, 119, 120, 121, 122, 123, 124, 125, 126, 127, 128, 129]

def wlows : List ℚ := [99, 100, 101, 102, 103, 104, 105, 106, 107, 108, 109, 110, 111, 112, 113, 114, 115, 116, 117, 118, 119, 120, 121, 122, 123, 124, 125, 126, 127, 128]

def wvols : List ℚ := [300000, 300000, 300000, 300000, 300000, 300000, 300000, 300000, 300000, 300000, 300000, 300000, 300000, 300000, 300000, 300000, 300000, 300000, 300000, 300000, 300000, 300000, 300000, 300000, 300000, 300000, 300000, 300000, 300000, 300000]

/-- The MTF-builder buffer of `witness_engine` after `evaluate` has fed it
the most recent bar. -/
def wbuf : List Bar :=
  [⟨8100, 100, 101, 99, 101, 10⟩, ⟨8400, 101, 102, 100, 102, 10⟩,
   ⟨8700, 128, 129, 128, 257/2, 300000⟩]

/-- A one-bar state whose MTF context is NEUTRAL (too few bars for any
aggregate candle). -/
def c1_engine : StrategyEngine :=
  ⟨⟨400, [("Y", [⟨0, 1, 1, 1, 1, 1⟩])], 0, 0⟩, [], []⟩

/-- Breakout-detector input whose last price jumps above the trailing
range by far more than the ATR: a CONFIRMED LONG breakout. -/
def zcloses : List ℚ := [100, 101, 102, 103, 104, 105, 106, 107, 108, 109, 110, 111, 112, 113, 114, 115, 116, 117, 118, 119, 120, 121, 122, 123, 124, 125, 126, 127, 128, 135]

def zhighs : List ℚ := [201/2, 203/2, 205/2, 207/2, 209/2, 211/2, 213/2, 215/2, 217/2, 219/2, 221/2, 223/2, 225/2, 227/2, 229/2, 231/2, 233/2, 235/2, 237/2, 239/2, 241/2, 243/2, 245/2, 247/2, 249/2, 251/2, 253/2, 255/2, 257/2, 271/2]

def zlows : List ℚ := [199/2, 201/2, 203/2, 205/2, 207/2, 209/2, 211/2, 213/2, 215/2, 217/2, 219/2, 221/2, 223/2, 225/2, 227/2, 229/2, 231/2, 233/2, 235/2, 237/2, 239/2, 241/2, 243/2, 245/2, 247/2, 249/2, 251/2, 253/2, 255/2, 269/2]

def zvols : List ℚ := [1000, 1000, 1000, 1000, 1000, 1000, 1000, 1000, 1000, 1000, 1000, 1000, 1000, 1000, 1000, 1000, 1000, 1000, 1000, 1000, 1000, 1000, 1000, 1000, 1000, 1000, 1000, 1000, 1000, 1000]

/-- Pullback-detector input: price near the support of the recent lows
with a bullish rejection wick, rising volume and positive momentum: a
CONFIRMED LONG pullback. -/
def pcloses : List ℚ := [1010, 1010, 1010, 1010, 1010, 1010, 1010, 1010, 1010, 1010, 1010, 1010, 1010, 1010, 1010, 1010, 1010, 1010, 1010, 1010, 1010, 1010, 1010, 1010, 1012, 1016, 1014, 1016, 1018, 1020]

def phighs : List ℚ := [1012, 1012, 1012, 1012, 1012, 1012, 1012, 1012, 1012, 1012, 1055, 1012, 1012, 1012, 1012, 1012, 1012, 1012, 1012, 1012, 1012, 1012, 1012, 1012, 1014, 1018, 1016, 1018, 1020, 1022]

def plows : List ℚ := [1008, 1008, 1008, 1008, 1008, 1008, 1008, 1008, 1008, 1008, 1008, 1008, 1008, 1008, 1008, 1008, 1008, 1008, 1008, 1008, 1008, 1008, 1008, 1008, 1010, 1014, 1012, 1014, 1016, 1010]

def pvols : List ℚ := [500000, 500000, 500000, 500000, 500000, 500000, 500000, 500000, 500000, 500000, 500000, 500000, 500000, 500000, 500000, 500000, 500000, 500000, 500000, 500000, 500000, 500000, 500000, 500000, 500000, 500000, 500000, 600000, 700000, 1000000]

/-- Decision-engine input whose price-action stage contributes
`0.122 * 1.3 = 0.1586`, so the running sum `4.8586` is not representable
in two decimals and the returned score `4.86` differs from the clamped
sum. -/
def ce8_closes : List ℚ := [1300, 1300, 1300, 1300, 1300, 1300, 1300, 1303]

def ce8_highs : List ℚ := [1302, 1302, 1302, 1302, 1302, 1302, 1302, 2000]

def ce8_lows : List ℚ := [1298, 1298, 1298, 1298, 1298, 1298, 1298, 1000]

def ce8_vols : List ℚ := [100, 100, 100, 100, 100, 100, 100, 100]

def ce8_vwap : VWAPContext := ⟨none, 0, 0, "NEAR", "NEUTRAL", 0, ""⟩

def ce8_sig : DecisionSignalIn := ⟨"CONFIRMED", "LONG", none⟩

/-- 40 rising prices: enough data for a BULLISH HTF bias. -/
def c9_prices : List ℚ := [1, 2, 3, 4, 5, 6, 7, 8, 9, 10, 11, 12, 13, 14, 15, 16, 17, 18, 19, 20, 21, 22, 23, 24, 25, 26, 27, 28, 29, 30, 31, 32, 33, 34, 35, 36, 37, 38, 39, 40]


/-- Every stored series of the scanner respects the capacity. -/
def scanner_cap_ok (s : MarketScanner) : Prop :=
  ∀ inst l, alistGet s.bars inst = some l → l.length ≤ s.max_len

def w8_vwap : VWAPContext := ⟨none, 0, 0, "NEAR", "NEUTRAL", 0, ""⟩

def w8_sig : DecisionSignalIn := ⟨"CONFIRMED", "LONG", none⟩

def w10_hi : List ℚ :=
  [2000000, 2000000, 2000000, 2000000, 2000000, 2000000, 2000000, 2000000,
    2000000, 2000000, 2000000, 2000000]

def w10_lo : List ℚ :=
  [100, 100, 100, 100, 100, 100, 100, 100, 100, 100, 100, 100]

/-- The keyword set of the `final_trade_decision` call in `evaluate` does
not bind: `htf_bias_label` and `breakout_signal` are not among the
declared parameters. -/
theorem evaluate_call_binds_false : evaluate_call_binds = false := by decide

theorem breakout_stage_fst (eng2 : StrategyEngine) (inst_key : String)
    (prices highs lows closes volumes : List ℚ) (d r hl : String)
    (vc : VWAPContext) :
    (evaluate_breakout_stage eng2 inst_key prices highs lows closes volumes d r hl vc).1 =
      (if breakout_gates_pass inst_key prices highs lows closes volumes d then
        EvalResult.raises else EvalResult.noneR) := by
  simp only [evaluate_breakout_stage, breakout_gates_pass, evaluate_call_binds_false,
    Bool.false_eq_true, if_false]
  split <;> rename_i hb <;> split at hb <;> simp_all <;> split_ifs <;> simp_all

theorem breakout_stage_snd (eng2 : StrategyEngine) (inst_key : String)
    (prices highs lows closes volumes : List ℚ) (d r hl : String)
    (vc : VWAPContext) :
    (evaluate_breakout_stage eng2 inst_key prices highs lows closes volumes d r hl vc).2 =
      eng2 := by
  simp only [evaluate_breakout_stage, evaluate_call_binds_false,
    Bool.false_eq_true, if_false]
  split <;> simp_all <;> split_ifs <;> simp_all

theorem vwap_stage_fst (eng1 : StrategyEngine) (inst_key : String) (ltp : ℚ)
    (prices highs lows closes volumes : List ℚ) (d r : String) :
    (evaluate_vwap_stage eng1 inst_key ltp prices highs lows closes volumes d r).1 =
      (if vwap_stage_gates_pass eng1 inst_key ltp prices highs lows closes volumes d then
        EvalResult.raises else EvalResult.noneR) := by
  simp only [evaluate_vwap_stage, vwap_stage_gates_pass]
  split_ifs with h1 h2 <;> simp_all [breakout_stage_fst]

theorem vwap_stage_snd (eng1 : StrategyEngine) (inst_key : String) (ltp : ℚ)
    (prices highs lows closes volumes : List ℚ) (d r : String) :
    (evaluate_vwap_stage eng1 inst_key ltp prices highs lows closes volumes d r).2 =
      { eng1 with vwap_calculators := alistSet eng1.vwap_calculators inst_key (vwap_stage_calc eng1 inst_key ltp volumes) } := by
  simp only [evaluate_vwap_stage]
  split_ifs <;> simp [breakout_stage_snd]

theorem regime_stage_fst (eng1 : StrategyEngine) (inst_key : String) (ltp : ℚ)
    (prices highs lows closes volumes : List ℚ) (d : String) :
    (evaluate_regime_stage eng1 inst_key ltp prices highs lows closes volumes d).1 =
      (if (detect_market_regime highs lows closes).state = "WEAK" ∨
          (detect_market_regime highs lows closes).state = "COMPRESSION" then
        EvalResult.noneR
      else if vwap_stage_gates_pass eng1 inst_key ltp prices highs lows closes volumes d then
        EvalResult.raises else EvalResult.noneR) := by
  simp only [evaluate_regime_stage]
  split_ifs with h h2 <;> first | rfl | (rw [vwap_stage_fst] ; simp_all)

theorem regime_stage_snd (eng1 : StrategyEngine) (inst_key : String) (ltp : ℚ)
    (prices highs lows closes volumes : List ℚ) (d : String) :
    (evaluate_regime_stage eng1 inst_key ltp prices highs lows closes volumes d).2 =
      (if (detect_market_regime highs lows closes).state = "WEAK" ∨
          (detect_market_regime highs lows closes).state = "COMPRESSION" then eng1
      else { eng1 with vwap_calculators := alistSet eng1.vwap_calculators inst_key (vwap_stage_calc eng1 inst_key ltp volumes) }) := by
  simp only [evaluate_regime_stage]
  split_ifs with h <;> first | rfl | (rw [vwap_stage_snd])

theorem evaluate_fst_eq (eng : StrategyEngine) (inst_key : String) (ltp : ℚ) :
    (evaluate eng inst_key ltp).1 =
      (if gates_pass eng inst_key ltp then EvalResult.raises else EvalResult.noneR) := by
  simp only [evaluate, gates_pass]
  split
  · simp
  · split
    · simp
    · split
      · simp
      · split
        · simp
        · split_ifs with h1 h2 h3 <;> simp_all [regime_stage_fst]

theorem evaluate_ne_decision (eng : StrategyEngine) (inst_key : String) (ltp : ℚ)
    (d : DecisionResult) : (evaluate eng inst_key ltp).1 ≠ EvalResult.decision d := by
  rw [evaluate_fst_eq]; split_ifs <;> simp

theorem gates_pass_mtf_ok (eng : StrategyEngine) (inst_key : String) (ltp : ℚ)
    (h : gates_pass eng inst_key ltp = true) :
    ∃ ctx, mtf_context_of eng inst_key = some ctx ∧
      ctx.direction ≠ "NEUTRAL" ∧ ctx.conflict = false := by
  simp only [gates_pass] at h
  repeat' split at h
  all_goals simp_all

theorem w_prices : get_prices witness_engine.scanner "X" = wcloses := by
  simp [get_prices, get_last_n_bars, alistGet, pyLastSlice, takeLast,
    witness_engine, witness_bars, wcloses]

theorem w_highs : get_highs witness_engine.scanner "X" = whighs := by
  simp [get_highs, get_last_n_bars, alistGet, pyLastSlice, takeLast,
    witness_engine, witness_bars, whighs]

theorem w_lows : get_lows witness_engine.scanner "X" = wlows := by
  simp [get_lows, get_last_n_bars, alistGet, pyLastSlice, takeLast,
    witness_engine, witness_bars, wlows]

theorem w_closes : get_closes witness_engine.scanner "X" = wcloses := by
  simp [get_closes, get_last_n_bars, alistGet, pyLastSlice, takeLast,
    witness_engine, witness_bars, wcloses]

theorem w_volumes : get_volumes witness_engine.scanner "X" = wvols := by
  simp [get_volumes, get_last_n_bars, alistGet, pyLastSlice, takeLast,
    witness_engine, witness_bars, wvols]

theorem w_enough : has_enough_data witness_engine.scanner "X" 30 := by decide

theorem w_buffers : witness_engine.mtf_buffers = [("X", witness_mtf_pre)] := rfl

theorem w_closes_ne : wcloses ≠ [] := by decide
theorem w_highs_ne : whighs ≠ [] := by decide
theorem w_lows_ne : wlows ≠ [] := by decide
theorem w_vols_ne : wvols ≠ [] := by decide

theorem w_last_bar :
    get_last_n_bars witness_engine.scanner "X" 1 =
      [⟨8700, 128, 129, 128, 257/2, 300000⟩] := by
  simp [get_last_n_bars, alistGet, pyLastSlice, takeLast, witness_engine,
    witness_bars]

theorem w_buf_after :
    mtf_buffers_after witness_engine "X" = [("X", wbuf)] := by
  norm_num +decide [mtf_buffers_after, w_last_bar, w_buffers, mtf_update,
    to_5min_iso, dequeAppend, mtf_max_5m_bars, alistGet, alistSet,
    witness_mtf_pre, wbuf]

theorem w_c15 :
    get_latest_tf [("X", wbuf)] "X" 15 =
      some ⟨8100, 8700, 100, 129, 99, 257/2, 300020⟩ := by
  norm_num +decide [get_latest_tf, alistGet, wbuf, pyLastSlice, takeLast,
    mtf_aggregate, listMax, listMin, qmax, qmin]

theorem w_c30 : get_latest_tf [("X", wbuf)] "X" 30 = none := by
  norm_num +decide [get_latest_tf, alistGet, wbuf, pyLastSlice, takeLast,
    mtf_aggregate, listMax, listMin, qmax, qmin]

theorem w_h15 :
    get_tf_history [("X", wbuf)] "X" 15 3 =
      [⟨8100, 8700, 100, 129, 99, 257/2, 300020⟩] := by
  norm_num +decide [get_tf_history, alistGet, wbuf, mtf_aggregate, listMax,
    listMin, qmax, qmin, List.range, List.range.loop, List.filterMap]

theorem w_h30 : get_tf_history [("X", wbuf)] "X" 30 3 = [] := by
  norm_num +decide [get_tf_history, alistGet, wbuf, mtf_aggregate, listMax,
    listMin, qmax, qmin, List.range, List.range.loop, List.filterMap]

theorem w_score :
    mtf_score (some ⟨8100, 8700, 100, 129, 99, 257/2, 300020⟩) none
      [⟨8100, 8700, 100, 129, 99, 257/2, 300020⟩] [] = 4/5 := by
  norm_num [mtf_score, mtf_vote, mtf_conflict, candle_is_bullish,
    candle_is_bearish, persistence_score, takeLast]

theorem w_mtf :
    mtf_context_of witness_engine "X" =
      some ⟨"BULLISH", 4/5, "MEDIUM", false, ""⟩ := by
  norm_num +decide [mtf_context_of, w_last_bar, w_buf_after, w_c15, w_c30,
    w_h15, w_h30, get_latest_15m, get_latest_30m, analyze_mtf, w_score,
    mtf_conflict, candle_is_bullish, candle_is_bearish, pyRound,
    roundHalfEven, qmin, qabs]

theorem w_regime :
    (detect_market_regime whighs wlows wcloses).state = "TRENDING" := by
  norm_num +decide [detect_market_regime, compute_adx, compute_atr,
    compute_true_range, plus_dm_list, minus_dm_list, regime_cap, sliceNN,
    takeLast, pyLastSlice, listMax, listMin, qmax, qmin, qabs,
    whighs, wlows, wcloses]

set_option maxHeartbeats 1000000 in
theorem w_breakout :
    breakout_gates_pass "X" wcloses whighs wlows wcloses wvols "BULLISH" = true := by
  norm_num +decide [breakout_gates_pass, breakout_signal, breakout_atr_ok,
    breakout_atr_field, breakout_volume_ok, idxNeg, pyLast,
    sliceNN, listMax, listMin, qmax, qmin, qabs, detect_compression,
    pyLastSlice, takeLast, compute_atr, compute_true_range,
    volume_spike_confirmed, analyze_volume, strictlyRising, strictlyFalling,
    pyRound, roundHalfEven, wcloses, whighs, wlows, wvols]

theorem w_htf (v : Option ℚ) : (get_htf_bias wcloses v).direction = "NEUTRAL" := by
  norm_num [get_htf_bias, wcloses]

set_option maxHeartbeats 1000000 in
theorem witness_gates_pass : gates_pass witness_engine "X" 130 = true := by
  norm_num +decide [gates_pass, w_enough, w_prices, w_highs, w_lows, w_closes,
    w_volumes, w_closes_ne, w_highs_ne, w_lows_ne, w_vols_ne, w_last_bar,
    w_mtf, w_regime, w_htf, w_breakout, vwap_stage_gates_pass]

/-- C1: if `StrategyEngine.evaluate` were to return a decision whose state
starts with EXECUTE, the MTF context of that evaluation could not be
NEUTRAL or conflicting: whenever the computed `MTFContext` is NEUTRAL or
in 15m/30m conflict, `evaluate` returns `None` before any decision is
produced, and no EXECUTE decision can be returned. -/
theorem c1_mtf_gate_blocks_decision (eng : StrategyEngine) (inst_key : String)
    (ltp : ℚ) (ctx : MTFContext)
    (h1 : mtf_context_of eng inst_key = some ctx)
    (h2 : ctx.direction = "NEUTRAL" ∨ ctx.conflict = true) :
    (evaluate eng inst_key ltp).1 = EvalResult.noneR ∧
      ∀ d : DecisionResult, (∃ dir, d.state = "EXECUTE_" ++ dir) →
        (evaluate eng inst_key ltp).1 ≠ EvalResult.decision d := by
  have hg : gates_pass eng inst_key ltp = false := by
    cases hb : gates_pass eng inst_key ltp with
    | false => rfl
    | true =>
        obtain ⟨ctx', hc', hdir, hcf⟩ := gates_pass_mtf_ok eng inst_key ltp hb
        rw [h1] at hc'
        obtain rfl : ctx = ctx' := by injection hc'
        rcases h2 with h2 | h2
        · exact absurd h2 hdir
        · rw [h2] at hcf; cases hcf
  refine ⟨?_, fun d _ => evaluate_ne_decision eng inst_key ltp d⟩
  rw [evaluate_fst_eq, hg]
  simp

theorem c1_mtf_gate_blocks_decision_witness :
    mtf_context_of c1_engine "Y" = some ⟨"NEUTRAL", 0, "LOW", false, ""⟩ ∧
      (evaluate c1_engine "Y" 1).1 = EvalResult.noneR := by
  have hm : mtf_context_of c1_engine "Y" = some ⟨"NEUTRAL", 0, "LOW", false, ""⟩ := by
    norm_num +decide [mtf_context_of, c1_engine, get_last_n_bars, alistGet,
      pyLastSlice, takeLast, mtf_buffers_after, mtf_update, to_5min_iso,
      dequeAppend, mtf_max_5m_bars, alistSet, get_latest_15m, get_latest_30m,
      get_latest_tf, get_tf_history, analyze_mtf, mtf_score, mtf_vote,
      mtf_conflict, persistence_score, pyRound, roundHalfEven, qmin, qabs,
      List.range, List.range.loop, List.filterMap]
  exact ⟨hm, (c1_mtf_gate_blocks_decision c1_engine "Y" 1 _ hm (Or.inl rfl)).1⟩

/-- C2: on any state that passes every veto gate, the call of
`final_trade_decision` raises `TypeError` (its keywords `htf_bias_label`
and `breakout_signal` are not parameters of the function), so `evaluate`
never returns a `DecisionResult` on any input: it returns `None` at a
gate or raises. -/
theorem c2_keyword_mismatch_raises (eng : StrategyEngine) (inst_key : String)
    (ltp : ℚ) (h : gates_pass eng inst_key ltp = true) :
    (evaluate eng inst_key ltp).1 = EvalResult.raises ∧
      evaluate_call_binds = false ∧
      ∀ (eng' : StrategyEngine) (i' : String) (l' : ℚ) (d : DecisionResult),
        (evaluate eng' i' l').1 ≠ EvalResult.decision d := by
  refine ⟨?_, evaluate_call_binds_false,
    fun eng' i' l' d => evaluate_ne_decision eng' i' l' d⟩
  rw [evaluate_fst_eq, h]
  simp

theorem c2_keyword_mismatch_raises_witness :
    gates_pass witness_engine "X" 130 = true ∧
      (evaluate witness_engine "X" 130).1 = EvalResult.raises :=
  ⟨witness_gates_pass,
    (c2_keyword_mismatch_raises witness_engine "X" 130 witness_gates_pass).1⟩

/-- C3 (amended): one `evaluate` call never mutates the scanner's bar
store; the only state it may change are the MTF builder's buffer for the
evaluated instrument (`mtf_buffers_after`: exactly one normalized bar
appended) and the VWAP calculators dictionary, which when changed receives
exactly one `update(ltp, volumes[-1])` of that instrument's calculator —
performed before the VWAP context is read (see `evaluate_vwap_stage`). -/
theorem c3_frame_effects (eng : StrategyEngine) (inst_key : String) (ltp : ℚ) :
    (evaluate eng inst_key ltp).2.scanner = eng.scanner ∧
    ((evaluate eng inst_key ltp).2.mtf_buffers = eng.mtf_buffers ∨
      (evaluate eng inst_key ltp).2.mtf_buffers = mtf_buffers_after eng inst_key) ∧
    ((evaluate eng inst_key ltp).2.vwap_calculators = eng.vwap_calculators ∨
      (evaluate eng inst_key ltp).2.vwap_calculators =
        alistSet eng.vwap_calculators inst_key
          ((vwap_update ((alistGet eng.vwap_calculators inst_key).getD VWAPCalculator.init)
            ltp (last_volume (get_volumes eng.scanner inst_key))).2)) := by
  simp only [evaluate]
  split
  · exact ⟨rfl, Or.inl rfl, Or.inl rfl⟩
  · split
    · exact ⟨rfl, Or.inl rfl, Or.inl rfl⟩
    · split
      · exact ⟨rfl, Or.inl rfl, Or.inl rfl⟩
      · split
        · exact ⟨rfl, Or.inr rfl, Or.inl rfl⟩
        · split_ifs with h1 h2
          · exact ⟨rfl, Or.inr rfl, Or.inl rfl⟩
          · exact ⟨rfl, Or.inr rfl, Or.inl rfl⟩
          · rw [regime_stage_snd]
            split_ifs with h3
            · exact ⟨rfl, Or.inr rfl, Or.inl rfl⟩
            · exact ⟨rfl, Or.inr rfl, Or.inr rfl⟩

theorem c3_ce_buffers :
    (evaluate witness_engine "X" 130).2.mtf_buffers = [("X", wbuf)] := by
  norm_num +decide [evaluate, w_enough, w_prices, w_highs, w_lows, w_closes,
    w_volumes, w_closes_ne, w_highs_ne, w_lows_ne, w_vols_ne, w_last_bar,
    w_mtf, w_regime, w_buf_after, regime_stage_snd]

/-- C3, counterexample: the pipeline does mutate shared per-instrument
state beyond the VWAP accumulators — the MTF builder's buffer owned by
the engine changes during an evaluation. -/
theorem c3_mtf_buffer_mutates :
    (evaluate witness_engine "X" 130).2.mtf_buffers ≠ witness_engine.mtf_buffers := by
  rw [c3_ce_buffers, w_buffers]
  decide

theorem breakout_atr_ok_spec (prices hp lp cp : List ℚ) (am : ℚ)
    (h : breakout_atr_ok prices hp lp cp am = true) :
    ∃ a, compute_atr hp lp cp 14 = some a ∧ a ≠ 0 ∧
      a * am ≤ qabs (pyLast prices - idxNeg prices 2) := by
  unfold breakout_atr_ok at h
  split at h
  · split at h
    · rename_i a ha
      exact ⟨a, ha, of_decide_eq_true h⟩
    · exact absurd h (by simp)
  · exact absurd h (by simp)

theorem breakout_volume_ok_spec (vh : List ℚ) (vt : ℚ)
    (h : breakout_volume_ok vh vt = true) :
    volume_spike_confirmed vh vt = true := by
  unfold breakout_volume_ok at h
  simp only [Bool.and_eq_true] at h
  exact h.2

/-- C4: no detector returns CONFIRMED without its mandatory confirmation:
`breakout_signal` only when the last price breaches the trailing 20-bar
range and the one-bar displacement reaches `atr_multiplier` times the
14-period ATR or a volume spike is confirmed; `detect_pullback_signal`
only when its additive total score reaches 4.2. -/
theorem c4_confirmed_requires_confirmation :
    (∀ (inst_key : String)
       (prices volume_history high_prices low_prices close_prices : List ℚ)
       (bpct vthr amult : ℚ) (r : BreakoutSignal),
       breakout_signal inst_key prices volume_history high_prices low_prices
         close_prices bpct vthr amult = some r →
       r.signal = "CONFIRMED" →
       (listMax (sliceNN 21 1 prices) < pyLast prices ∨
         pyLast prices < listMin (sliceNN 21 1 prices)) ∧
       ((∃ a, compute_atr high_prices low_prices close_prices 14 = some a ∧
           a ≠ 0 ∧ a * amult ≤ qabs (pyLast prices - idxNeg prices 2)) ∨
         volume_spike_confirmed volume_history vthr = true)) ∧
    (∀ (prices highs lows closes volumes : List ℚ) (htf_direction : String)
       (mp : ℚ) (mb : ℕ) (r : PullbackSignal),
       detect_pullback_signal prices highs lows closes volumes htf_direction
         mp mb = some r →
       r.signal = "CONFIRMED" →
       ∃ nearest direction,
         get_nearest_sr (pyLast closes) (compute_sr_levels highs lows) mp =
           some nearest ∧
         42/10 ≤ pullback_total_score prices highs lows closes volumes
           htf_direction direction nearest mp) := by
  constructor
  · intro inst_key prices volume_history high_prices low_prices close_prices
      bpct vthr amult r h hc
    simp only [breakout_signal] at h
    split at h
    · exact absurd h (by simp)
    · split at h
      · exact absurd h (by simp)
      · rename_i hbreach
        injection h with h
        subst h
        refine ⟨not_not.mp hbreach, ?_⟩
        simp only at hc
        split at hc
        · rename_i hok
          cases ha : breakout_atr_ok prices high_prices low_prices close_prices amult with
          | true =>
              exact Or.inl (breakout_atr_ok_spec prices high_prices low_prices
                close_prices amult ha)
          | false =>
              rw [ha, Bool.false_or] at hok
              exact Or.inr (breakout_volume_ok_spec volume_history vthr hok)
        · simp at hc
  · intro prices highs lows closes volumes htf_direction mp mb r h hc
    simp only [detect_pullback_signal] at h
    split at h
    · exact absurd h (by simp)
    · split at h
      · exact absurd h (by simp)
      · rename_i nearest heq
        split at h
        · exact absurd h (by simp)
        · rename_i direction hdir
          split at h
          · rename_i h42
            exact ⟨nearest, direction, heq, h42⟩
          · split at h
            · injection h with h
              subst h
              simp at hc
            · exact absurd h (by simp)

set_option maxHeartbeats 1000000 in
set_option maxRecDepth 4000 in
theorem z_breakout :
    breakout_signal "Z" zcloses zvols zhighs zlows zcloses =
      some ⟨"CONFIRMED", "LONG", 3/2, 0, 3/2, 0, 128, 109, 135,
        some (1928571/1000000), true, false, "CONFIRMED_LONG"⟩ := by
  norm_num +decide [breakout_signal, breakout_atr_ok, breakout_atr_field,
    breakout_volume_ok, idxNeg, pyLast, sliceNN, listMax, listMin, qmax,
    qmin, qabs, detect_compression, pyLastSlice, takeLast, compute_atr,
    compute_true_range, volume_spike_confirmed, analyze_volume,
    strictlyRising, strictlyFalling, pyRound, roundHalfEven,
    zcloses, zhighs, zlows, zvols]

set_option maxHeartbeats 1000000 in
set_option maxRecDepth 4000 in
theorem p_pullback :
    detect_pullback_signal pcloses phighs plows pcloses pvols "BULLISH" =
      some ⟨"CONFIRMED", "LONG", 623/100, ⟨"support", 1008, 1/85⟩,
        "CONFIRMED_LONG"⟩ := by
  norm_num +decide [detect_pullback_signal, pullback_total_score,
    compute_sr_levels, get_nearest_sr, idxNeg, pyLast, sliceNN, listMax,
    listMin, qmax, qmin, qabs, pyLastSlice, takeLast, compute_atr,
    compute_true_range, analyze_volatility, rejection_info, analyze_volume,
    strictlyRising, strictlyFalling, pyRound, roundHalfEven,
    pcloses, phighs, plows, pvols]

theorem c4_confirmed_requires_confirmation_witness :
    ((listMax (sliceNN 21 1 zcloses) < pyLast zcloses ∨
        pyLast zcloses < listMin (sliceNN 21 1 zcloses)) ∧
      ((∃ a, compute_atr zhighs zlows zcloses 14 = some a ∧ a ≠ 0 ∧
          a * 1 ≤ qabs (pyLast zcloses - idxNeg zcloses 2)) ∨
        volume_spike_confirmed zvols (14/10) = true)) ∧
    (∃ nearest direction,
      get_nearest_sr (pyLast pcloses) (compute_sr_levels phighs plows) (3/100) =
        some nearest ∧
      42/10 ≤ pullback_total_score pcloses phighs plows pcloses pvols
        "BULLISH" direction nearest (3/100)) :=
  ⟨c4_confirmed_requires_confirmation.1 "Z" zcloses zvols zhighs zlows zcloses
      (3/1000) (14/10) 1 _ z_breakout rfl,
   c4_confirmed_requires_confirmation.2 pcloses phighs plows pcloses pvols
      "BULLISH" (3/100) 30 _ p_pullback rfl⟩

theorem alistGet_alistSet (m : List (String × α)) (k k' : String) (v : α) :
    alistGet (alistSet m k v) k' = if k' = k then some v else alistGet m k' := by
  induction m with
  | nil =>
      by_cases h : k' = k
      · subst h; simp [alistGet, alistSet, List.find?]
      · have hb : (k == k') = false := beq_false_of_ne (fun e => h e.symm)
        simp [alistGet, alistSet, List.find?, hb, h]
  | cons p rest ih =>
      obtain ⟨k0, v0⟩ := p
      by_cases h0 : k0 = k
      · subst h0
        by_cases h : k' = k0
        · subst h; simp [alistGet, alistSet, List.find?]
        · have hb : (k0 == k') = false := beq_false_of_ne (fun e => h e.symm)
          simp [alistGet, alistSet, List.find?, hb, h]
      · have hb0 : (k0 == k) = false := beq_false_of_ne h0
        by_cases h : k' = k0
        · subst h
          simp [alistGet, alistSet, List.find?, hb0, h0]
        · have hb : (k0 == k') = false := beq_false_of_ne (fun e => h e.symm)
          simpa [alistGet, alistSet, List.find?, hb0, hb] using ih

theorem dequeAppend_length_le (m : ℕ) (xs : List α) (x : α)
    (h : xs.length ≤ m) : (dequeAppend m xs x).length ≤ m := by
  simp only [dequeAppend]
  split <;> rename_i hc <;>
    simp only [List.length_drop, List.length_append, List.length_cons,
      List.length_nil] at hc ⊢ <;>
    omega

theorem cur_len_le (s : MarketScanner) (inst : String) (h : scanner_cap_ok s) :
    ((alistGet s.bars inst).getD []).length ≤ s.max_len := by
  cases hc : alistGet s.bars inst with
  | none => simp
  | some l => simpa using h inst l hc

theorem runOp_max_len (s : MarketScanner) (op : ScanOp) :
    (runOp s op).max_len = s.max_len := by
  cases op with
  | ohlc inst t o hp lp cp v => rfl
  | tick inst ts p v =>
      simp only [runOp, append_tick]
      split
      · split <;> rfl
      · rfl

theorem runOp_cap (s : MarketScanner) (op : ScanOp) (h : scanner_cap_ok s) :
    scanner_cap_ok (runOp s op) := by
  cases op with
  | ohlc inst t o hp lp cp v =>
      intro inst' l hl
      rw [runOp_max_len]
      simp only [runOp, append_ohlc_bar, alistGet_alistSet] at hl
      split at hl
      · cases hl
        exact dequeAppend_length_le _ _ _ (cur_len_le s inst h)
      · exact h inst' l hl
  | tick inst ts p v =>
      intro inst' l hl
      rw [runOp_max_len]
      simp only [runOp, append_tick] at hl
      split at hl
      · split at hl
        · simp only [alistGet_alistSet] at hl
          split at hl
          · cases hl
            exact dequeAppend_length_le _ _ _ (cur_len_le s inst h)
          · exact h inst' l hl
        · rename_i lastBar hlast _
          simp only [alistGet_alistSet] at hl
          split at hl
          · cases hl
            have hcur := cur_len_le s inst h
            have hne : ((alistGet s.bars inst).getD []) ≠ [] := by
              intro he; rw [he] at hlast; simp at hlast
            have hpos : 0 < ((alistGet s.bars inst).getD []).length :=
              List.length_pos.mpr hne
            simp [List.length_dropLast]
            omega
          · exact h inst' l hl
      · simp only [alistGet_alistSet] at hl
        split at hl
        · cases hl
          exact dequeAppend_length_le _ _ _ (cur_len_le s inst h)
        · exact h inst' l hl

theorem runOps_cap (m : ℕ) (ops : List ScanOp) :
    scanner_cap_ok (runOps (MarketScanner.init m) ops) := by
  have h0 : scanner_cap_ok (MarketScanner.init m) := by
    intro inst l hl
    simp [MarketScanner.init, alistGet, List.find?] at hl
  have hstep : ∀ (s : MarketScanner), scanner_cap_ok s →
      scanner_cap_ok (runOps s ops) := by
    induction ops with
    | nil => intro s hs; exact hs
    | cons op rest ih =>
        intro s hs
        exact ih (runOp s op) (runOp_cap s op hs)
  exact hstep _ h0

theorem runOps_max_len (s : MarketScanner) (ops : List ScanOp) :
    (runOps s ops).max_len = s.max_len := by
  induction ops generalizing s with
  | nil => rfl
  | cons op rest ih =>
      simp only [runOps, List.foldl_cons] at *
      rw [ih, runOp_max_len]

theorem StrictTimes_dequeAppend (m : ℕ) (xs : List Bar) (b : Bar)
    (hs : StrictTimes xs)
    (hlt : ∀ lb, xs.getLast? = some lb → lb.time < b.time) :
    StrictTimes (dequeAppend m xs b) := by
  have happ : StrictTimes (xs ++ [b]) := by
    refine List.Chain'.append hs (List.chain'_singleton b) ?_
    intro x hx y hy
    simp only [List.head?] at hy
    cases hy
    exact hlt x (Option.mem_def.mp hx)
  simp only [dequeAppend]
  split
  · exact happ.drop _
  · exact happ

theorem stored_sorted (s : MarketScanner) (inst : String)
    (hs : ∀ inst' l', alistGet s.bars inst' = some l' → StrictTimes l') :
    StrictTimes ((alistGet s.bars inst).getD []) := by
  cases hc : alistGet s.bars inst with
  | none => exact List.chain'_nil
  | some l => simpa using hs inst l hc

theorem append_ohlc_bar_sorted (s : MarketScanner) (inst : String) (t : ℕ)
    (o hp lp cp v : ℚ)
    (hs : ∀ inst' l', alistGet s.bars inst' = some l' → StrictTimes l')
    (ht : ∀ lb, ((alistGet s.bars inst).getD []).getLast? = some lb → lb.time < t) :
    ∀ inst' l', alistGet (append_ohlc_bar s inst t o hp lp cp v).bars inst' = some l' →
      StrictTimes l' := by
  intro inst' l' hl
  simp only [append_ohlc_bar, alistGet_alistSet] at hl
  split at hl
  · cases hl
    exact StrictTimes_dequeAppend _ _ _ (stored_sorted s inst hs) ht
  · exact hs inst' l' hl

theorem append_tick_sorted (s : MarketScanner) (inst : String) (ts : ℕ)
    (p v : ℚ)
    (hs : ∀ inst' l', alistGet s.bars inst' = some l' → StrictTimes l')
    (ht : ∀ lb, ((alistGet s.bars inst).getD []).getLast? = some lb →
        lb.time ≤ round_to_5min ts) :
    ∀ inst' l', alistGet (append_tick s inst ts p v).bars inst' = some l' →
      StrictTimes l' := by
  intro inst' l' hl
  simp only [append_tick] at hl
  split at hl
  · rename_i lastBar hlast
    split at hl
    · rename_i hne
      simp only [alistGet_alistSet] at hl
      split at hl
      · cases hl
        refine StrictTimes_dequeAppend _ _ _ (stored_sorted s inst hs) ?_
        intro lb hlb
        rw [hlast] at hlb
        injection hlb with hlb
        subst hlb
        exact lt_of_le_of_ne (ht lastBar hlast) (by simpa using hne)
      · exact hs inst' l' hl
    · simp only [alistGet_alistSet] at hl
      split at hl
      · cases hl
        have hcur : StrictTimes ((alistGet s.bars inst).getD []) :=
          stored_sorted s inst hs
        have hdecomp :
            ((alistGet s.bars inst).getD []).dropLast ++ [lastBar] =
              (alistGet s.bars inst).getD [] :=
          List.dropLast_append_getLast? lastBar (Option.mem_def.mpr hlast)
        rw [← hdecomp] at hcur
        obtain ⟨ha, _, hc⟩ := List.chain'_append.1 hcur
        refine List.Chain'.append ha (List.chain'_singleton _) ?_
        intro x hx y hy
        simp only [List.head?] at hy
        cases hy
        exact hc x hx lastBar (by simp)
      · exact hs inst' l' hl
  · rename_i hnone
    simp only [alistGet_alistSet] at hl
    split at hl
    · cases hl
      refine StrictTimes_dequeAppend _ _ _ (stored_sorted s inst hs) ?_
      intro lb hlb
      rw [hnone] at hlb
      exact Option.noConfusion hlb
    · exact hs inst' l' hl

/-- C5 (amended): over any operation sequence from a fresh scanner the
stored series never exceeds `max_len`; and each single append keeps the
stored series strictly increasing in time provided the incoming
timestamp is beyond the last stored one (strictly for `append_ohlc_bar`;
at or beyond the last 5-minute bucket for `append_tick`). -/
theorem c5_capacity_and_conditional_order :
    (∀ (m : ℕ) (ops : List ScanOp) (inst : String) (l : List Bar),
        alistGet (runOps (MarketScanner.init m) ops).bars inst = some l →
        l.length ≤ m) ∧
    (∀ (s : MarketScanner) (inst : String) (t : ℕ) (o hp lp cp v : ℚ),
        (∀ inst' l', alistGet s.bars inst' = some l' → StrictTimes l') →
        (∀ lb, ((alistGet s.bars inst).getD []).getLast? = some lb → lb.time < t) →
        ∀ inst' l',
          alistGet (append_ohlc_bar s inst t o hp lp cp v).bars inst' = some l' →
          StrictTimes l') ∧
    (∀ (s : MarketScanner) (inst : String) (ts : ℕ) (p v : ℚ),
        (∀ inst' l', alistGet s.bars inst' = some l' → StrictTimes l') →
        (∀ lb, ((alistGet s.bars inst).getD []).getLast? = some lb →
            lb.time ≤ round_to_5min ts) →
        ∀ inst' l',
          alistGet (append_tick s inst ts p v).bars inst' = some l' →
          StrictTimes l') := by
  refine ⟨?_, append_ohlc_bar_sorted, append_tick_sorted⟩
  intro m ops inst l hl
  have h := runOps_cap m ops inst l hl
  rw [runOps_max_len] at h
  simpa [MarketScanner.init] using h

/-- C5 counterexample: the scanner performs no timestamp validation, so
two `append_ohlc_bar` calls with the same timestamp store two bars with a
duplicate time. -/
theorem c5_duplicate_timestamp_counterexample :
    ∃ l, alistGet (runOps (MarketScanner.init 400)
          [ScanOp.ohlc "A" 600 1 1 1 1 1, ScanOp.ohlc "A" 600 1 1 1 1 1]).bars "A" =
        some l ∧ ¬ StrictTimes l := by
  refine ⟨[⟨600, 1, 1, 1, 1, 1⟩, ⟨600, 1, 1, 1, 1, 1⟩], by decide, ?_⟩
  simp [StrictTimes]

/-- Witness for C5: concrete instances discharging every hypothesis. -/
theorem c5_capacity_and_conditional_order_witness :
    ([(⟨600, 1, 1, 1, 1, 1⟩ : Bar), ⟨900, 1, 1, 1, 1, 1⟩] : List Bar).length ≤ 2 ∧
    StrictTimes [(⟨0, 2, 2, 2, 2, 3⟩ : Bar)] ∧
    StrictTimes [(⟨600, 5, 5, 5, 5, 7⟩ : Bar)] := by
  refine ⟨?_, ?_, ?_⟩
  · exact c5_capacity_and_conditional_order.1 2
      [ScanOp.ohlc "A" 300 1 1 1 1 1, ScanOp.ohlc "A" 600 1 1 1 1 1,
        ScanOp.ohlc "A" 900 1 1 1 1 1] "A" _ (by decide)
  · exact c5_capacity_and_conditional_order.2.1 (MarketScanner.init 400) "A" 0 2 2 2 2 3
      (fun _ _ h => Option.noConfusion h)
      (fun _ h => Option.noConfusion h) "A" _ (by decide)
  · exact c5_capacity_and_conditional_order.2.2 (MarketScanner.init 400) "A" 754 5 7
      (fun _ _ h => Option.noConfusion h)
      (fun _ h => Option.noConfusion h) "A" _ (by decide)

/-- C6: on a buffer whose last three 5-minute bars carry opens 12,13,14,
highs 13,14,15, lows 11,12,13, closes 12.5,13.5,14.5 and volumes
100,100,100, `get_latest_tf` at 15 minutes aggregates to
open 12, high 15, low 11, close 14.5, volume 300. -/
theorem c6_latest_15m_aggregate (pre : List Bar) (t1 t2 t3 : ℕ) :
    ∃ c, get_latest_tf
        [("M", pre ++ [⟨t1, 12, 13, 11, 25/2, 100⟩, ⟨t2, 13, 14, 12, 27/2, 100⟩,
            ⟨t3, 14, 15, 13, 29/2, 100⟩])] "M" 15 = some c ∧
      c.open_p = 12 ∧ c.high_p = 15 ∧ c.low_p = 11 ∧ c.close_p = 29/2 ∧
      c.volume = 300 := by
  refine ⟨⟨t1, t3, 12, 15, 11, 29/2, 300⟩, ?_, rfl, rfl, rfl, rfl, rfl⟩
  have hagg : mtf_aggregate [(⟨t1, 12, 13, 11, 25/2, 100⟩ : Bar),
      ⟨t2, 13, 14, 12, 27/2, 100⟩, ⟨t3, 14, 15, 13, 29/2, 100⟩] =
      ⟨t1, t3, 12, 15, 11, 29/2, 300⟩ := by
    norm_num [mtf_aggregate, listMax, listMin, qmax, qmin]
  have hslice : pyLastSlice 3 (pre ++ [(⟨t1, 12, 13, 11, 25/2, 100⟩ : Bar),
      ⟨t2, 13, 14, 12, 27/2, 100⟩, ⟨t3, 14, 15, 13, 29/2, 100⟩]) =
      [⟨t1, 12, 13, 11, 25/2, 100⟩, ⟨t2, 13, 14, 12, 27/2, 100⟩,
        ⟨t3, 14, 15, 13, 29/2, 100⟩] := by
    have hlen : pre.length + 3 - 3 = pre.length := by omega
    simp only [pyLastSlice, takeLast, List.length_append, List.length_cons,
      List.length_nil]
    rw [if_neg (by omega)]
    simp only [show pre.length + (0 + 1 + 1 + 1) = pre.length + 3 from by omega, hlen]
    exact List.drop_left pre _
  have hget : alistGet [("M", pre ++ [(⟨t1, 12, 13, 11, 25/2, 100⟩ : Bar),
      ⟨t2, 13, 14, 12, 27/2, 100⟩, ⟨t3, 14, 15, 13, 29/2, 100⟩])] "M" =
      some (pre ++ [(⟨t1, 12, 13, 11, 25/2, 100⟩ : Bar),
        ⟨t2, 13, 14, 12, 27/2, 100⟩, ⟨t3, 14, 15, 13, 29/2, 100⟩]) := by
    simp [alistGet, List.find?]
  simp only [get_latest_tf, hget, Option.getD_some]
  rw [if_neg (by simp), if_neg (by simp [List.length_append]), hslice, hagg]

/-- C7: `get_vwap` yields no value when the cumulative volume is zero, and
`update` with non-positive volume returns `None` and leaves the whole
calculator state unchanged. -/
theorem c7_vwap_zero_volume (s s' : VWAPCalculator) (price volume : ℚ)
    (h0 : s.volume_sum = 0) (hv : volume ≤ 0) :
    get_vwap s = none ∧ vwap_update s' price volume = (none, s') := by
  constructor
  · unfold get_vwap
    rw [if_pos (le_of_eq h0)]
  · unfold vwap_update
    rw [if_pos hv]

/-- Witness for C7. -/
theorem c7_vwap_zero_volume_witness :
    VWAPCalculator.init.volume_sum = 0 ∧ (0 : ℚ) ≤ 0 ∧
    get_vwap VWAPCalculator.init = none ∧
    vwap_update VWAPCalculator.init 100 0 = (none, VWAPCalculator.init) :=
  ⟨rfl, le_refl 0,
    (c7_vwap_zero_volume VWAPCalculator.init VWAPCalculator.init 100 0 rfl
      (le_refl 0)).1,
    (c7_vwap_zero_volume VWAPCalculator.init VWAPCalculator.init 100 0 rfl
      (le_refl 0)).2⟩

theorem string_append_ne_of_length {a b c : String} (h : a.length + c.length ≠ b.length) :
    a ++ c ≠ b := by
  intro he
  have hlen := congrArg String.length he
  rw [String.length_append] at hlen
  exact h hlen

/-- C8 (amended): with a pullback signal the returned score is the
component sum clamped to `[0, 10]` and then rounded to two decimals; the
state follows the 5.5 / 3.5 thresholds applied to that returned score;
the direction is `none` exactly for IGNORE; and without a signal the
call short-circuits to IGNORE with score 0. -/
theorem c8_score_state_direction (inst_key : String)
    (prices highs lows closes volumes : List ℚ)
    (market_regime htf_bias_direction : String) (vwap_ctx : VWAPContext)
    (sig : DecisionSignalIn) (d : DecisionResult)
    (hd : d = final_trade_decision inst_key prices highs lows closes volumes
        market_regime htf_bias_direction vwap_ctx (some sig)) :
    final_trade_decision inst_key prices highs lows closes volumes
        market_regime htf_bias_direction vwap_ctx none =
      ⟨"IGNORE", 0, none, [], "no pullback setup"⟩ ∧
    d.score = pyRound (qmax (qmin (decision_component_sum highs lows closes
        volumes market_regime htf_bias_direction vwap_ctx sig) 10) 0) 2 ∧
    d.state = (if (55 : ℚ)/10 ≤ d.score then "EXECUTE_" ++ sig.direction
        else if (35 : ℚ)/10 ≤ d.score then "PREPARE_" ++ sig.direction
        else "IGNORE") ∧
    (d.direction = none ↔ d.state = "IGNORE") := by
  subst hd
  have hscore : (final_trade_decision inst_key prices highs lows closes volumes
      market_regime htf_bias_direction vwap_ctx (some sig)).score =
      pyRound (qmax (qmin (decision_component_sum highs lows closes
        volumes market_regime htf_bias_direction vwap_ctx sig) 10) 0) 2 := by
    simp only [final_trade_decision]
    split_ifs <;> rfl
  refine ⟨rfl, hscore, ?_, ?_⟩
  · rw [hscore]
    simp only [final_trade_decision]
    split_ifs <;> rfl
  · simp only [final_trade_decision]
    split_ifs
    · constructor
      · intro h; exact absurd h (by simp)
      · intro h
        exact absurd h (string_append_ne_of_length (by
          have h8 : ("EXECUTE_" : String).length = 8 := rfl
          have h6 : ("IGNORE" : String).length = 6 := rfl
          rw [h8, h6]; omega))
    · constructor
      · intro h; exact absurd h (by simp)
      · intro h
        exact absurd h (string_append_ne_of_length (by
          have h8 : ("PREPARE_" : String).length = 8 := rfl
          have h6 : ("IGNORE" : String).length = 6 := rfl
          rw [h8, h6]; omega))
    · simp

/-- The exact component sum on the C8 counterexample inputs. -/
theorem ce8_sum :
    decision_component_sum ce8_highs ce8_lows ce8_closes ce8_vols
      "TRENDING" "BULLISH" ce8_vwap ce8_sig = 24293/5000 := by
  norm_num +decide [decision_component_sum, decision_structure_score,
    decision_htf_score, decision_regime_score, decision_vwap_score,
    decision_volume_score, decision_volatility_score, decision_liquidity_score,
    decision_pa_score, decision_sr_score, ce8_highs, ce8_lows, ce8_closes,
    ce8_vols, ce8_vwap, ce8_sig, analyze_volume, analyze_volatility,
    analyze_liquidity, price_action_context, sr_location_score,
    detect_pullback_in_trend, rejection_info, compute_atr, compute_true_range,
    strictlyRising, strictlyFalling, qmax, qmin, qabs, pyRound, roundHalfEven,
    pyLast, idxNeg, takeLast, pyLastSlice, sliceNN, dropLastN, listMax, listMin]

/-- C8 counterexample: on these inputs the returned score (rounded to two
decimals) differs from the exact clamped component sum. -/
theorem c8_rounding_counterexample :
    (final_trade_decision "C" ce8_closes ce8_highs ce8_lows ce8_closes ce8_vols
        "TRENDING" "BULLISH" ce8_vwap (some ce8_sig)).score ≠
      qmax (qmin (decision_component_sum ce8_highs ce8_lows ce8_closes ce8_vols
        "TRENDING" "BULLISH" ce8_vwap ce8_sig) 10) 0 := by
  have hscore : (final_trade_decision "C" ce8_closes ce8_highs ce8_lows
      ce8_closes ce8_vols "TRENDING" "BULLISH" ce8_vwap (some ce8_sig)).score =
      pyRound (qmax (qmin (decision_component_sum ce8_highs ce8_lows ce8_closes
        ce8_vols "TRENDING" "BULLISH" ce8_vwap ce8_sig) 10) 0) 2 := by
    simp only [final_trade_decision]
    split_ifs <;> rfl
  rw [hscore, ce8_sum]
  norm_num [pyRound, roundHalfEven, qmax, qmin]

/-- Witness for C8. -/
theorem c8_score_state_direction_witness :
    final_trade_decision "W" [] [] [] [] [] "X" "X" w8_vwap none =
      ⟨"IGNORE", 0, none, [], "no pullback setup"⟩ ∧
    (final_trade_decision "W" [] [] [] [] [] "X" "X" w8_vwap (some w8_sig)).score =
      pyRound (qmax (qmin (decision_component_sum [] [] [] [] "X" "X" w8_vwap
        w8_sig) 10) 0) 2 ∧
    (final_trade_decision "W" [] [] [] [] [] "X" "X" w8_vwap (some w8_sig)).state =
      (if (55 : ℚ)/10 ≤ (final_trade_decision "W" [] [] [] [] [] "X" "X" w8_vwap
          (some w8_sig)).score then "EXECUTE_" ++ w8_sig.direction
        else if (35 : ℚ)/10 ≤ (final_trade_decision "W" [] [] [] [] [] "X" "X"
          w8_vwap (some w8_sig)).score then "PREPARE_" ++ w8_sig.direction
        else "IGNORE") ∧
    ((final_trade_decision "W" [] [] [] [] [] "X" "X" w8_vwap
        (some w8_sig)).direction = none ↔
      (final_trade_decision "W" [] [] [] [] [] "X" "X" w8_vwap
        (some w8_sig)).state = "IGNORE") :=
  c8_score_state_direction "W" [] [] [] [] [] "X" "X" w8_vwap w8_sig _ rfl

/-- C9 counterexample: with insufficient data the returned strength is
0.5, outside `[0.8, 10]`. -/
theorem c9_insufficient_strength_counterexample :
    ¬ ((8 : ℚ)/10 ≤ (get_htf_bias [] none).strength) := by
  norm_num [get_htf_bias]

/-- C9 (amended): on the directional (non-NEUTRAL) paths the strength is
clamped into `[0.8, 10]`; and with fewer than `long_period + 5` prices
the direction is NEUTRAL (with strength 0.5, outside the claimed range). -/
theorem c9_htf_strength_bounds (prices : List ℚ) (vwap_value : Option ℚ)
    (sp lp : ℕ) (tol : ℚ) :
    ((get_htf_bias prices vwap_value sp lp tol).direction ≠ "NEUTRAL" →
      (8 : ℚ)/10 ≤ (get_htf_bias prices vwap_value sp lp tol).strength ∧
      (get_htf_bias prices vwap_value sp lp tol).strength ≤ 10) ∧
    (prices.length < lp + 5 →
      (get_htf_bias prices vwap_value sp lp tol).direction = "NEUTRAL") := by
  have hb : ∀ x : ℚ, (8 : ℚ)/10 ≤ qmax (8/10) (qmin x 10) ∧
      qmax (8/10) (qmin x 10) ≤ 10 := by
    intro x
    simp only [qmax, qmin]
    split_ifs <;> constructor <;> linarith
  simp only [get_htf_bias]
  split
  · exact ⟨fun hd => absurd rfl hd, fun _ => rfl⟩
  · rename_i hcond
    split
    · exact ⟨fun hd => absurd rfl hd, fun _ => rfl⟩
    · exact ⟨fun hd => absurd rfl hd, fun _ => rfl⟩
    · split
      · exact ⟨fun hd => absurd rfl hd, fun _ => rfl⟩
      · exact ⟨fun _ => hb _, fun hlen => absurd (Or.inr hlen) hcond⟩

/-- Concrete evaluation of the HTF bias on 40 rising prices. -/
theorem c9_bias_eval :
    get_htf_bias c9_prices none = ⟨"BULLISH", 263/50, "BULLISH_WEAK", ""⟩ := by
  norm_num +decide [get_htf_bias, exponential_moving_average, c9_prices,
    htf_base_strength, htf_maturity_bonus, htf_vwap_adjust, pyLast, takeLast,
    dropLastN, listMax, listMin, qmax, qmin, qabs, pyRound, roundHalfEven]

/-- Witness for C9. -/
theorem c9_htf_strength_bounds_witness :
    ((8 : ℚ)/10 ≤ (get_htf_bias c9_prices none 14 34 (8/1000)).strength ∧
      (get_htf_bias c9_prices none 14 34 (8/1000)).strength ≤ 10) ∧
    (get_htf_bias [] none 14 34 (8/1000)).direction = "NEUTRAL" :=
  ⟨(c9_htf_strength_bounds c9_prices none 14 34 (8/1000)).1
      (by rw [c9_bias_eval]; decide),
    (c9_htf_strength_bounds [] none 14 34 (8/1000)).2 (by decide)⟩

theorem roundHalfEven_lb (x : ℚ) : ⌊x⌋ ≤ roundHalfEven x := by
  simp only [roundHalfEven]
  split_ifs <;> omega

theorem roundHalfEven_ub (x : ℚ) : roundHalfEven x ≤ ⌊x⌋ + 1 := by
  simp only [roundHalfEven]
  split_ifs <;> omega

theorem roundHalfEven_mono {x y : ℚ} (h : x ≤ y) :
    roundHalfEven x ≤ roundHalfEven y := by
  by_cases hf : ⌊x⌋ < ⌊y⌋
  · calc roundHalfEven x ≤ ⌊x⌋ + 1 := roundHalfEven_ub x
      _ ≤ ⌊y⌋ := hf
      _ ≤ roundHalfEven y := roundHalfEven_lb y
  · have hfe : ⌊x⌋ = ⌊y⌋ := le_antisymm (Int.floor_le_floor h) (not_lt.mp hf)
    have hfx : (⌊x⌋ : ℚ) ≤ x := Int.floor_le x
    simp only [roundHalfEven, ← hfe]
    split_ifs <;> first | omega | linarith

theorem pyRound_mono {a b : ℚ} (n : ℕ) (h : a ≤ b) :
    pyRound a n ≤ pyRound b n := by
  simp only [pyRound]
  have hm : a * 10 ^ n ≤ b * 10 ^ n :=
    mul_le_mul_of_nonneg_right h (by positivity)
  have hint : ((roundHalfEven (a * 10 ^ n) : ℤ) : ℚ) ≤
      ((roundHalfEven (b * 10 ^ n) : ℤ) : ℚ) := by
    exact_mod_cast roundHalfEven_mono hm
  exact div_le_div_of_nonneg_right hint (by positivity) |>.trans_eq rfl

theorem clamp22_mono {a b : ℚ} (h : a ≤ b) :
    qmax (qmin a 2) (-2) ≤ qmax (qmin b 2) (-2) := by
  simp only [qmax, qmin]
  split_ifs <;> linarith

/-- C10: with at least 12 volumes on both sides and the same count of
non-zero bars over the 12-bar lookback, the liquidity score is monotone
non-decreasing in the average recent volume. -/
theorem c10_liquidity_monotone (v1 v2 : List ℚ)
    (h1 : 12 ≤ v1.length) (h2 : 12 ≤ v2.length)
    (hc : ((pyLastSlice 12 v1).filter (fun v => decide (0 < v))).length =
        ((pyLastSlice 12 v2).filter (fun v => decide (0 < v))).length)
    (ha : (pyLastSlice 12 v2).sum / 12 ≤ (pyLastSlice 12 v1).sum / 12) :
    (analyze_liquidity v2).score ≤ (analyze_liquidity v1).score := by
  have hins1 : ¬(v1 = [] ∨ v1.length < 12) := by
    rintro (he | hlt)
    · rw [he] at h1; simp at h1
    · omega
  have hins2 : ¬(v2 = [] ∨ v2.length < 12) := by
    rintro (he | hlt)
    · rw [he] at h2; simp at h2
    · omega
  simp only [analyze_liquidity, if_neg hins1, if_neg hins2]
  apply pyRound_mono
  apply clamp22_mono
  rw [hc]
  push_cast
  split_ifs <;> dsimp only <;> linarith

/-- Witness for C10. -/
theorem c10_liquidity_monotone_witness :
    (analyze_liquidity w10_lo).score ≤ (analyze_liquidity w10_hi).score :=
  c10_liquidity_monotone w10_hi w10_lo (by decide) (by decide) (by decide)
    (by norm_num [w10_hi, w10_lo, pyLastSlice, takeLast])
